import Mathlib

/-!
# ghbot: webhook event dispatch and hook registry

A shallow embedding of `ghbot.go` and `hooks.go`.

* Go pointers are `Ptr α` (`none` is the nil pointer).  An expression that
  dereferences a pointer is evaluated in `Option`: `none` is the run-time panic
  "nil pointer dereference".
* Every `*github.XEvent` is embedded as `Ptr (GHEvent P)`: the three members the
  dispatcher reads (`Sender`, `Org`, `Repo`) plus the remaining members as one
  value of an arbitrary type `P`.  A branch reads only the members its source
  text reads.
* A hook is a Go closure.  Its effect on the rest of the program is a function on
  an arbitrary world type `W`; its result is `none` (nil) or an error.  Hooks and
  loggers are taken to return; they do not touch the bot while a dispatch runs.
* `handleWebHookEvent` returns an `Outcome`: the world after the call, the trace
  of logger calls and hook invocations in the order they happened, and how the
  call ended (returned nil, returned an error, panicked).
* An error built by `xerrors.Errorf` holds its message, its cause (verb `%w`) and
  the call site (`Frame`): the line of ghbot.go on which Errorf is called.
* `githubWebHookHandler` takes the functions of go-github it calls
  (`ValidatePayload`, `WebHookType`, `ParseWebHook`) as parameters and returns the
  status codes it passed to `WriteHeader`.
* A sequence of calls on one bot (`Op`, `run`) threads the bot and the world.
* A hook that calls a registration method while it runs is a `ReHook`; for such
  hooks `bot.mu` is a flag (`Mutex`), free or held.
* Apart from that flag `sync.Mutex` is not embedded: the model is sequential.
-/

namespace Ghbot

/-! ## Go values -/

/-- Pointer to a value: none is the nil pointer. -/
abbrev Ptr (α : Type) := Option α

/-- The call site that `xerrors.Errorf` records in the error it returns
(`Caller(1)`), printed with the error under the verb `%+v`: the line of ghbot.go
on which Errorf is called, inside handleWebHookEvent. -/
structure Frame where
  line : Nat
  deriving DecidableEq, Repr

/-- Go error values as the dispatcher sees them: an error made elsewhere (a
message), and the two errors built by `xerrors.Errorf`, which hold a message, the
call site and, with the verb `%w`, the wrapped cause. -/
inductive GoError where
  | errorString (msg : String)
  | noWrapError (msg : String) (frame : Frame)
  | wrapError (msg : String) (err : GoError) (frame : Frame)
  deriving DecidableEq, Repr

/-- Method `Error()`: a wrapping error prints its own message, a colon and the
message of its cause. -/
def GoError.Error : GoError → String
  | .errorString msg => msg
  | .noWrapError msg _ => msg
  | .wrapError msg err _ => msg ++ ": " ++ GoError.Error err

/-- Method `Unwrap()` as used by `xerrors.Unwrap`: the cause, if any. -/
def GoError.Unwrap : GoError → Option GoError
  | .errorString _ => none
  | .noWrapError _ _ => none
  | .wrapError _ err _ => some err

/-- Call `xerrors.Errorf(msg + ": %w", err)` with a non-nil err, made at the call
site frame: a wrapping error whose message is msg and whose cause is err. -/
def xerrors.ErrorfW (msg : String) (err : GoError) (frame : Frame) : GoError :=
  .wrapError msg err frame

/-- Call `xerrors.Errorf(msg + "%s", s)` with a string s, made at the call site
frame: an error without cause whose message is the formatted text. -/
def xerrors.ErrorfS (msg : String) (s : String) (frame : Frame) : GoError :=
  .noWrapError (msg ++ s) frame

/-! ## The parts of go-github the dispatcher reads -/

structure User where
  Login : Ptr String
  deriving DecidableEq, Repr

structure Organization where
  Name : Ptr String
  deriving DecidableEq, Repr

structure Repository where
  Name : Ptr String
  deriving DecidableEq, Repr

/-- A webhook event struct of go-github: the members read by the dispatcher and
the rest of the struct as payload. -/
structure GHEvent (P : Type) where
  Sender : Ptr User
  Org : Ptr Organization
  Repo : Ptr Repository
  payload : P

variable {Ctx P W : Type}

/-- Accessor `GetSender()`: nil-safe on the receiver. -/
def GHEvent.GetSender (e : Ptr (GHEvent P)) : Ptr User :=
  match e with
  | none => none
  | some ev => ev.Sender

/-- Accessor `GetOrg()`: nil-safe on the receiver. -/
def GHEvent.GetOrg (e : Ptr (GHEvent P)) : Ptr Organization :=
  match e with
  | none => none
  | some ev => ev.Org

/-- Accessor `GetRepo()`: nil-safe on the receiver. -/
def GHEvent.GetRepo (e : Ptr (GHEvent P)) : Ptr Repository :=
  match e with
  | none => none
  | some ev => ev.Repo

/-- Expression `*(u.Login)` for a pointer u: none is the nil pointer dereference
panic, raised when u is nil or when u.Login is nil. -/
def User.loadLogin (u : Ptr User) : Option String :=
  match u with
  | none => none
  | some usr => usr.Login

/-- Expression `*(o.Name)` for a pointer o to an organization. -/
def Organization.loadName (o : Ptr Organization) : Option String :=
  match o with
  | none => none
  | some org => org.Name

/-- Expression `*(r.Name)` for a pointer r to a repository. -/
def Repository.loadName (r : Ptr Repository) : Option String :=
  match r with
  | none => none
  | some repo => repo.Name

/-! ## hooks.go -/

/-- A hook: called with the context and the event, it acts on the world and
returns nil (none) or an error. -/
abbrev Hook (Ctx P W : Type) := Ctx → Ptr (GHEvent P) → W → W × Option GoError

abbrev CheckRunEventHook (Ctx P W : Type) := Hook Ctx P W
abbrev CheckSuiteEventHook (Ctx P W : Type) := Hook Ctx P W
abbrev CommitCommentEventHook (Ctx P W : Type) := Hook Ctx P W
abbrev CreateEventHook (Ctx P W : Type) := Hook Ctx P W
abbrev DeleteEventHook (Ctx P W : Type) := Hook Ctx P W
abbrev DeployKeyEventHook (Ctx P W : Type) := Hook Ctx P W
abbrev DeploymentEventHook (Ctx P W : Type) := Hook Ctx P W
abbrev DeploymentStatusEventHook (Ctx P W : Type) := Hook Ctx P W
abbrev ForkEventHook (Ctx P W : Type) := Hook Ctx P W
abbrev GitHubAppAuthorizationEventHook (Ctx P W : Type) := Hook Ctx P W
abbrev GollumEventHook (Ctx P W : Type) := Hook Ctx P W
abbrev InstallationEventHook (Ctx P W : Type) := Hook Ctx P W
abbrev InstallationRepositoriesEventHook (Ctx P W : Type) := Hook Ctx P W
abbrev IssueCommentEventHook (Ctx P W : Type) := Hook Ctx P W
abbrev IssueEventHook (Ctx P W : Type) := Hook Ctx P W
abbrev IssuesEventHook (Ctx P W : Type) := Hook Ctx P W
abbrev LabelEventHook (Ctx P W : Type) := Hook Ctx P W
abbrev MarketplacePurchaseEventHook (Ctx P W : Type) := Hook Ctx P W
abbrev MemberEventHook (Ctx P W : Type) := Hook Ctx P W
abbrev MembershipEventHook (Ctx P W : Type) := Hook Ctx P W
abbrev MetaEventHook (Ctx P W : Type) := Hook Ctx P W
abbrev MilestoneEventHook (Ctx P W : Type) := Hook Ctx P W
abbrev OrgBlockEventHook (Ctx P W : Type) := Hook Ctx P W
abbrev OrganizationEventHook (Ctx P W : Type) := Hook Ctx P W
abbrev PageBuildEventHook (Ctx P W : Type) := Hook Ctx P W
abbrev PingEventHook (Ctx P W : Type) := Hook Ctx P W
abbrev ProjectCardEventHook (Ctx P W : Type) := Hook Ctx P W
abbrev ProjectColumnEventHook (Ctx P W : Type) := Hook Ctx P W
abbrev ProjectEventHook (Ctx P W : Type) := Hook Ctx P W
abbrev PublicEventHook (Ctx P W : Type) := Hook Ctx P W
abbrev PullRequestEventHook (Ctx P W : Type) := Hook Ctx P W
abbrev PullRequestReviewCommentEventHook (Ctx P W : Type) := Hook Ctx P W
abbrev PullRequestReviewEventHook (Ctx P W : Type) := Hook Ctx P W
abbrev PushEventHook (Ctx P W : Type) := Hook Ctx P W
abbrev ReleaseEventHook (Ctx P W : Type) := Hook Ctx P W
abbrev RepositoryEventHook (Ctx P W : Type) := Hook Ctx P W
abbrev RepositoryVulnerabilityAlertEventHook (Ctx P W : Type) := Hook Ctx P W
abbrev StarEventHook (Ctx P W : Type) := Hook Ctx P W
abbrev StatusEventHook (Ctx P W : Type) := Hook Ctx P W
abbrev TeamAddEventHook (Ctx P W : Type) := Hook Ctx P W
abbrev TeamEventHook (Ctx P W : Type) := Hook Ctx P W
abbrev WatchEventHook (Ctx P W : Type) := Hook Ctx P W

/-! ## Logger -/

/-- An argument handed to a logger method. -/
inductive LogArg where
  | str (s : String)
  | err (e : GoError)
  deriving DecidableEq, Repr

/-- One call of a method of the `Logger` interface. -/
inductive LogCall where
  | Print (args : List LogArg)
  | Printf (format : String) (args : List LogArg)
  | Println (args : List LogArg)
  deriving DecidableEq, Repr

/-- A `Logger` implementation: what each method call does to the world. -/
abbrev Logger (W : Type) := LogCall → W → W

/-- The logger installed by `New`: every method has an empty body. -/
def nopLogger : Logger W := fun _ w => w

/-! ## eventTriggerLog -/

/-- The record logged for each delivery.  The member named Type in the source is
Typ here (a reserved word). -/
structure eventTriggerLog where
  Typ : String := ""
  Sender : String := ""
  Org : String := ""
  Repo : String := ""
  deriving DecidableEq, Repr

/-- Lower-case hexadecimal digit of a number below 16. -/
def json.hex (n : Nat) : Char :=
  if n < 10 then Char.ofNat (48 + n) else Char.ofNat (87 + n)

/-- String escaping of `encoding/json` with HTML escaping on (the default of
`json.Encoder`), for one code point of a valid UTF-8 string.  Backspace and form
feed are written as six-character escapes, as by the Go releases before 1.22;
later releases write them as two-character escapes. -/
def json.escapeRune (c : Char) : List Char :=
  let b := c.toNat
  if b < 128 then
    if 32 ≤ b ∧ b ≠ 34 ∧ b ≠ 92 ∧ b ≠ 60 ∧ b ≠ 62 ∧ b ≠ 38 then [c]
    else if b = 92 ∨ b = 34 then [Char.ofNat 92, c]
    else if b = 10 then [Char.ofNat 92, Char.ofNat 110]
    else if b = 13 then [Char.ofNat 92, Char.ofNat 114]
    else if b = 9 then [Char.ofNat 92, Char.ofNat 116]
    else [Char.ofNat 92, Char.ofNat 117, Char.ofNat 48, Char.ofNat 48, json.hex (b / 16), json.hex (b % 16)]
  else if b = 8232 ∨ b = 8233 then
    [Char.ofNat 92, Char.ofNat 117, Char.ofNat 50, Char.ofNat 48, Char.ofNat 50, json.hex (b % 16)]
  else [c]

def json.escape : List Char → List Char
  | [] => []
  | c :: cs => json.escapeRune c ++ json.escape cs

/-- A Go string as a JSON string literal. -/
def json.quote (s : String) : String :=
  String.mk (Char.ofNat 34 :: (json.escape s.toList ++ [Char.ofNat 34]))

/-- Method `String()`: `json.NewEncoder(&buf).Encode(etl)`, that is the JSON object
of the four members in declaration order, the three tagged `omitempty` left out
when empty, followed by a newline.  Encoding a struct of strings returns no
error, so the `panic(err)` branch is not reachable. -/
def eventTriggerLog.String (etl : eventTriggerLog) : String :=
  "\x7b\"type\":" ++ json.quote etl.Typ
    ++ (if etl.Sender = "" then "" else ",\"sender\":" ++ json.quote etl.Sender)
    ++ (if etl.Org = "" then "" else ",\"org\":" ++ json.quote etl.Org)
    ++ (if etl.Repo = "" then "" else ",\"repo\":" ++ json.quote etl.Repo)
    ++ "\x7d\n"

/-! ## Bot -/

structure Bot (Ctx P W : Type) where
  webhookSecret : ByteArray
  logger : Logger W
  checkRunEventHooks : List (CheckRunEventHook Ctx P W)
  checkSuiteEventHooks : List (CheckSuiteEventHook Ctx P W)
  commitCommentEventHooks : List (CommitCommentEventHook Ctx P W)
  createEventHooks : List (CreateEventHook Ctx P W)
  deleteEventHooks : List (DeleteEventHook Ctx P W)
  deployKeyEventHooks : List (DeployKeyEventHook Ctx P W)
  deploymentEventHooks : List (DeploymentEventHook Ctx P W)
  deploymentStatusEventHooks : List (DeploymentStatusEventHook Ctx P W)
  forkEventHooks : List (ForkEventHook Ctx P W)
  gitHubAppAuthorizationEventHooks : List (GitHubAppAuthorizationEventHook Ctx P W)
  gollumEventHooks : List (GollumEventHook Ctx P W)
  installationEventHooks : List (InstallationEventHook Ctx P W)
  installationRepositoriesEventHooks : List (InstallationRepositoriesEventHook Ctx P W)
  issueCommentEventHooks : List (IssueCommentEventHook Ctx P W)
  issueEventHooks : List (IssueEventHook Ctx P W)
  issuesEventHooks : List (IssuesEventHook Ctx P W)
  labelEventHooks : List (LabelEventHook Ctx P W)
  marketplacePurchaseEventHooks : List (MarketplacePurchaseEventHook Ctx P W)
  memberEventHooks : List (MemberEventHook Ctx P W)
  membershipEventHooks : List (MembershipEventHook Ctx P W)
  metaEventHooks : List (MetaEventHook Ctx P W)
  milestoneEventHooks : List (MilestoneEventHook Ctx P W)
  orgBlockEventHooks : List (OrgBlockEventHook Ctx P W)
  organizationEventHooks : List (OrganizationEventHook Ctx P W)
  pageBuildEventHooks : List (PageBuildEventHook Ctx P W)
  pingEventHooks : List (PingEventHook Ctx P W)
  projectCardEventHooks : List (ProjectCardEventHook Ctx P W)
  projectColumnEventHooks : List (ProjectColumnEventHook Ctx P W)
  projectEventHooks : List (ProjectEventHook Ctx P W)
  publicEventHooks : List (PublicEventHook Ctx P W)
  pullRequestEventHooks : List (PullRequestEventHook Ctx P W)
  pullRequestReviewCommentEventHooks : List (PullRequestReviewCommentEventHook Ctx P W)
  pullRequestReviewEventHooks : List (PullRequestReviewEventHook Ctx P W)
  pushEventHooks : List (PushEventHook Ctx P W)
  releaseEventHooks : List (ReleaseEventHook Ctx P W)
  repositoryEventHooks : List (RepositoryEventHook Ctx P W)
  repositoryVulnerabilityAlertEventHooks : List (RepositoryVulnerabilityAlertEventHook Ctx P W)
  starEventHooks : List (StarEventHook Ctx P W)
  statusEventHooks : List (StatusEventHook Ctx P W)
  teamAddEventHooks : List (TeamAddEventHook Ctx P W)
  teamEventHooks : List (TeamEventHook Ctx P W)
  watchEventHooks : List (WatchEventHook Ctx P W)

structure Config where
  WebHookSecret : String

def New (cfg : Config) : Bot Ctx P W where
  webhookSecret := cfg.WebHookSecret.toUTF8
  logger := nopLogger
  checkRunEventHooks := []
  checkSuiteEventHooks := []
  commitCommentEventHooks := []
  createEventHooks := []
  deleteEventHooks := []
  deployKeyEventHooks := []
  deploymentEventHooks := []
  deploymentStatusEventHooks := []
  forkEventHooks := []
  gitHubAppAuthorizationEventHooks := []
  gollumEventHooks := []
  installationEventHooks := []
  installationRepositoriesEventHooks := []
  issueCommentEventHooks := []
  issueEventHooks := []
  issuesEventHooks := []
  labelEventHooks := []
  marketplacePurchaseEventHooks := []
  memberEventHooks := []
  membershipEventHooks := []
  metaEventHooks := []
  milestoneEventHooks := []
  orgBlockEventHooks := []
  organizationEventHooks := []
  pageBuildEventHooks := []
  pingEventHooks := []
  projectCardEventHooks := []
  projectColumnEventHooks := []
  projectEventHooks := []
  publicEventHooks := []
  pullRequestEventHooks := []
  pullRequestReviewCommentEventHooks := []
  pullRequestReviewEventHooks := []
  pushEventHooks := []
  releaseEventHooks := []
  repositoryEventHooks := []
  repositoryVulnerabilityAlertEventHooks := []
  starEventHooks := []
  statusEventHooks := []
  teamAddEventHooks := []
  teamEventHooks := []
  watchEventHooks := []

/-- Source: SetLogger replaces bot.logger. -/
def SetLogger (bot : Bot Ctx P W) (logger : Logger W) : Bot Ctx P W :=
  { bot with logger := logger }

/-! ## Dispatch -/

/-- The dynamic value handed to `handleWebHookEvent` as `event interface{}`: a
pointer to one of the event structs named in the type switch, or any other
value. -/
inductive Event (P : Type) where
  | CheckRunEvent (e : Ptr (GHEvent P))
  | CheckSuiteEvent (e : Ptr (GHEvent P))
  | CommitCommentEvent (e : Ptr (GHEvent P))
  | CreateEvent (e : Ptr (GHEvent P))
  | DeleteEvent (e : Ptr (GHEvent P))
  | DeployKeyEvent (e : Ptr (GHEvent P))
  | DeploymentEvent (e : Ptr (GHEvent P))
  | DeploymentStatusEvent (e : Ptr (GHEvent P))
  | ForkEvent (e : Ptr (GHEvent P))
  | GitHubAppAuthorizationEvent (e : Ptr (GHEvent P))
  | GollumEvent (e : Ptr (GHEvent P))
  | InstallationEvent (e : Ptr (GHEvent P))
  | InstallationRepositoriesEvent (e : Ptr (GHEvent P))
  | IssueCommentEvent (e : Ptr (GHEvent P))
  | IssueEvent (e : Ptr (GHEvent P))
  | IssuesEvent (e : Ptr (GHEvent P))
  | LabelEvent (e : Ptr (GHEvent P))
  | MarketplacePurchaseEvent (e : Ptr (GHEvent P))
  | MemberEvent (e : Ptr (GHEvent P))
  | MembershipEvent (e : Ptr (GHEvent P))
  | MetaEvent (e : Ptr (GHEvent P))
  | MilestoneEvent (e : Ptr (GHEvent P))
  | OrgBlockEvent (e : Ptr (GHEvent P))
  | OrganizationEvent (e : Ptr (GHEvent P))
  | PageBuildEvent (e : Ptr (GHEvent P))
  | PingEvent (e : Ptr (GHEvent P))
  | ProjectCardEvent (e : Ptr (GHEvent P))
  | ProjectColumnEvent (e : Ptr (GHEvent P))
  | ProjectEvent (e : Ptr (GHEvent P))
  | PublicEvent (e : Ptr (GHEvent P))
  | PullRequestEvent (e : Ptr (GHEvent P))
  | PullRequestReviewCommentEvent (e : Ptr (GHEvent P))
  | PullRequestReviewEvent (e : Ptr (GHEvent P))
  | PushEvent (e : Ptr (GHEvent P))
  | ReleaseEvent (e : Ptr (GHEvent P))
  | RepositoryEvent (e : Ptr (GHEvent P))
  | RepositoryVulnerabilityAlertEvent (e : Ptr (GHEvent P))
  | StarEvent (e : Ptr (GHEvent P))
  | StatusEvent (e : Ptr (GHEvent P))
  | TeamAddEvent (e : Ptr (GHEvent P))
  | TeamEvent (e : Ptr (GHEvent P))
  | WatchEvent (e : Ptr (GHEvent P))
  | other (v : P)

/-- One observable step of a dispatch. -/
inductive Action (Ctx P W : Type) where
  | log (call : LogCall)
  | invoke (hook : Hook Ctx P W) (ctx : Ctx) (e : Ptr (GHEvent P)) (ret : Option GoError)

/-- How a call ended. -/
inductive Result where
  | returned (err : Option GoError)
  | panicked
  deriving DecidableEq, Repr

structure Outcome (Ctx P W : Type) where
  world : W
  trace : List (Action Ctx P W)
  result : Result

/-- The outcome of a computation that first performs the action a. -/
def Outcome.after (a : Action Ctx P W) (o : Outcome Ctx P W) : Outcome Ctx P W :=
  { o with trace := a :: o.trace }

/-- The loop `for _, hook := range hooks` found in every branch of the type
switch, followed by the `return nil` after the switch: each hook is called with
(ctx, e); at the first error the error is logged with Printf and returned
wrapped, fr being the line of that branch's call of Errorf. -/
def runHooks (logger : Logger W) (fr : Frame) (ctx : Ctx) (e : Ptr (GHEvent P)) :
    List (Hook Ctx P W) → W → Outcome Ctx P W
  | [], w => { world := w, trace := [], result := .returned none }
  | hook :: rest, w =>
    match hook ctx e w with
    | (w1, none) => (runHooks logger fr ctx e rest w1).after (.invoke hook ctx e none)
    | (w1, some err) =>
      { world := logger (.Printf "error on hook: %+v" [.err err]) w1
        trace := [.invoke hook ctx e (some err), .log (.Printf "error on hook: %+v" [.err err])]
        result := .returned (some (xerrors.ErrorfW "error on hook" err fr)) }

/-- The body shared by the branches of the type switch.  The composite literal
`eventTriggerLog{...}` is evaluated first (etl is none when one of its
dereferences panics), then logged with Println, then the hooks are run. -/
def logAndRunHooks (logger : Logger W) (fr : Frame) (ctx : Ctx) (e : Ptr (GHEvent P))
    (etl : Option eventTriggerLog) (hooks : List (Hook Ctx P W)) (w : W) : Outcome Ctx P W :=
  match etl with
  | none => { world := w, trace := [], result := .panicked }
  | some r =>
    (runHooks logger fr ctx e hooks (logger (.Println [.str r.String]) w)).after
      (.log (.Println [.str r.String]))

/-- Source: Bot.handleWebHookEvent.  One branch per case of the type switch, in
source order: the members read for the trigger record and the hook list
iterated are those of the source branch, and the frame is the line on which the
branch calls Errorf.  The last branch is `default`. -/
def handleWebHookEvent (bot : Bot Ctx P W) (ctx : Ctx) (typ : String) (event : Event P) (w : W) :
    Outcome Ctx P W :=
  match event with
  | .CheckRunEvent e =>
    logAndRunHooks bot.logger { line := 140 } ctx e
      (do
        let sender ← User.loadLogin (GHEvent.GetSender e)
        let org ← Organization.loadName (GHEvent.GetOrg e)
        let repo ← Repository.loadName (GHEvent.GetRepo e)
        pure { Typ := typ, Sender := sender, Org := org, Repo := repo })
      bot.checkRunEventHooks w
  | .CheckSuiteEvent e =>
    logAndRunHooks bot.logger { line := 153 } ctx e
      (do
        let sender ← User.loadLogin (GHEvent.GetSender e)
        let org ← Organization.loadName (GHEvent.GetOrg e)
        let repo ← Repository.loadName (GHEvent.GetRepo e)
        pure { Typ := typ, Sender := sender, Org := org, Repo := repo })
      bot.checkSuiteEventHooks w
  | .CommitCommentEvent e =>
    logAndRunHooks bot.logger { line := 165 } ctx e
      (do
        let sender ← User.loadLogin (GHEvent.GetSender e)
        let repo ← Repository.loadName (GHEvent.GetRepo e)
        pure { Typ := typ, Sender := sender, Repo := repo })
      bot.commitCommentEventHooks w
  | .CreateEvent e =>
    logAndRunHooks bot.logger { line := 177 } ctx e
      (do
        let sender ← User.loadLogin (GHEvent.GetSender e)
        let repo ← Repository.loadName (GHEvent.GetRepo e)
        pure { Typ := typ, Sender := sender, Repo := repo })
      bot.createEventHooks w
  | .DeleteEvent e =>
    logAndRunHooks bot.logger { line := 189 } ctx e
      (do
        let sender ← User.loadLogin (GHEvent.GetSender e)
        let repo ← Repository.loadName (GHEvent.GetRepo e)
        pure { Typ := typ, Sender := sender, Repo := repo })
      bot.deleteEventHooks w
  | .DeployKeyEvent e =>
    logAndRunHooks bot.logger { line := 199 } ctx e
      (pure { Typ := typ })
      bot.deployKeyEventHooks w
  | .DeploymentEvent e =>
    logAndRunHooks bot.logger { line := 211 } ctx e
      (do
        let sender ← User.loadLogin (GHEvent.GetSender e)
        let repo ← Repository.loadName (GHEvent.GetRepo e)
        pure { Typ := typ, Sender := sender, Repo := repo })
      bot.deploymentEventHooks w
  | .DeploymentStatusEvent e =>
    logAndRunHooks bot.logger { line := 223 } ctx e
      (do
        let sender ← User.loadLogin (GHEvent.GetSender e)
        let repo ← Repository.loadName (GHEvent.GetRepo e)
        pure { Typ := typ, Sender := sender, Repo := repo })
      bot.deploymentStatusEventHooks w
  | .ForkEvent e =>
    logAndRunHooks bot.logger { line := 235 } ctx e
      (do
        let sender ← User.loadLogin (GHEvent.GetSender e)
        let repo ← Repository.loadName (GHEvent.GetRepo e)
        pure { Typ := typ, Sender := sender, Repo := repo })
      bot.forkEventHooks w
  | .GitHubAppAuthorizationEvent e =>
    logAndRunHooks bot.logger { line := 246 } ctx e
      (do
        let sender ← User.loadLogin (GHEvent.GetSender e)
        pure { Typ := typ, Sender := sender })
      bot.gitHubAppAuthorizationEventHooks w
  | .GollumEvent e =>
    logAndRunHooks bot.logger { line := 258 } ctx e
      (do
        let sender ← User.loadLogin (GHEvent.GetSender e)
        let repo ← Repository.loadName (GHEvent.GetRepo e)
        pure { Typ := typ, Sender := sender, Repo := repo })
      bot.gollumEventHooks w
  | .InstallationEvent e =>
    logAndRunHooks bot.logger { line := 269 } ctx e
      (do
        let sender ← User.loadLogin (GHEvent.GetSender e)
        pure { Typ := typ, Sender := sender })
      bot.installationEventHooks w
  | .InstallationRepositoriesEvent e =>
    logAndRunHooks bot.logger { line := 280 } ctx e
      (do
        let sender ← User.loadLogin (GHEvent.GetSender e)
        pure { Typ := typ, Sender := sender })
      bot.installationRepositoriesEventHooks w
  | .IssueCommentEvent e =>
    logAndRunHooks bot.logger { line := 292 } ctx e
      (do
        let sender ← User.loadLogin (GHEvent.GetSender e)
        let repo ← Repository.loadName (GHEvent.GetRepo e)
        pure { Typ := typ, Sender := sender, Repo := repo })
      bot.issueCommentEventHooks w
  | .IssueEvent e =>
    logAndRunHooks bot.logger { line := 302 } ctx e
      (pure { Typ := typ })
      bot.issueEventHooks w
  | .IssuesEvent e =>
    logAndRunHooks bot.logger { line := 314 } ctx e
      (do
        let sender ← User.loadLogin (GHEvent.GetSender e)
        let repo ← Repository.loadName (GHEvent.GetRepo e)
        pure { Typ := typ, Sender := sender, Repo := repo })
      bot.issuesEventHooks w
  | .LabelEvent e =>
    logAndRunHooks bot.logger { line := 326 } ctx e
      (do
        let org ← Organization.loadName (GHEvent.GetOrg e)
        let repo ← Repository.loadName (GHEvent.GetRepo e)
        pure { Typ := typ, Org := org, Repo := repo })
      bot.labelEventHooks w
  | .MarketplacePurchaseEvent e =>
    logAndRunHooks bot.logger { line := 337 } ctx e
      (do
        let sender ← User.loadLogin (GHEvent.GetSender e)
        pure { Typ := typ, Sender := sender })
      bot.marketplacePurchaseEventHooks w
  | .MemberEvent e =>
    logAndRunHooks bot.logger { line := 349 } ctx e
      (do
        let sender ← User.loadLogin (GHEvent.GetSender e)
        let repo ← Repository.loadName (GHEvent.GetRepo e)
        pure { Typ := typ, Sender := sender, Repo := repo })
      bot.memberEventHooks w
  | .MembershipEvent e =>
    logAndRunHooks bot.logger { line := 361 } ctx e
      (do
        let sender ← User.loadLogin (GHEvent.GetSender e)
        let org ← Organization.loadName (GHEvent.GetOrg e)
        pure { Typ := typ, Sender := sender, Org := org })
      bot.membershipEventHooks w
  | .MetaEvent e =>
    logAndRunHooks bot.logger { line := 371 } ctx e
      (pure { Typ := typ })
      bot.metaEventHooks w
  | .MilestoneEvent e =>
    logAndRunHooks bot.logger { line := 384 } ctx e
      (do
        let sender ← User.loadLogin (GHEvent.GetSender e)
        let org ← Organization.loadName (GHEvent.GetOrg e)
        let repo ← Repository.loadName (GHEvent.GetRepo e)
        pure { Typ := typ, Sender := sender, Org := org, Repo := repo })
      bot.milestoneEventHooks w
  | .OrgBlockEvent e =>
    logAndRunHooks bot.logger { line := 395 } ctx e
      (do
        let sender ← User.loadLogin (GHEvent.GetSender e)
        pure { Typ := typ, Sender := sender })
      bot.orgBlockEventHooks w
  | .OrganizationEvent e =>
    logAndRunHooks bot.logger { line := 406 } ctx e
      (do
        let sender ← User.loadLogin (GHEvent.GetSender e)
        pure { Typ := typ, Sender := sender })
      bot.organizationEventHooks w
  | .PageBuildEvent e =>
    logAndRunHooks bot.logger { line := 418 } ctx e
      (do
        let sender ← User.loadLogin (GHEvent.GetSender e)
        let repo ← Repository.loadName (GHEvent.GetRepo e)
        pure { Typ := typ, Sender := sender, Repo := repo })
      bot.pageBuildEventHooks w
  | .PingEvent e =>
    logAndRunHooks bot.logger { line := 428 } ctx e
      (pure { Typ := typ })
      bot.pingEventHooks w
  | .ProjectCardEvent e =>
    logAndRunHooks bot.logger { line := 441 } ctx e
      (do
        let sender ← User.loadLogin (GHEvent.GetSender e)
        let org ← Organization.loadName (GHEvent.GetOrg e)
        let repo ← Repository.loadName (GHEvent.GetRepo e)
        pure { Typ := typ, Sender := sender, Org := org, Repo := repo })
      bot.projectCardEventHooks w
  | .ProjectColumnEvent e =>
    logAndRunHooks bot.logger { line := 454 } ctx e
      (do
        let sender ← User.loadLogin (GHEvent.GetSender e)
        let org ← Organization.loadName (GHEvent.GetOrg e)
        let repo ← Repository.loadName (GHEvent.GetRepo e)
        pure { Typ := typ, Sender := sender, Org := org, Repo := repo })
      bot.projectColumnEventHooks w
  | .ProjectEvent e =>
    logAndRunHooks bot.logger { line := 467 } ctx e
      (do
        let sender ← User.loadLogin (GHEvent.GetSender e)
        let org ← Organization.loadName (GHEvent.GetOrg e)
        let repo ← Repository.loadName (GHEvent.GetRepo e)
        pure { Typ := typ, Sender := sender, Org := org, Repo := repo })
      bot.projectEventHooks w
  | .PublicEvent e =>
    logAndRunHooks bot.logger { line := 479 } ctx e
      (do
        let sender ← User.loadLogin (GHEvent.GetSender e)
        let repo ← Repository.loadName (GHEvent.GetRepo e)
        pure { Typ := typ, Sender := sender, Repo := repo })
      bot.publicEventHooks w
  | .PullRequestEvent e =>
    logAndRunHooks bot.logger { line := 491 } ctx e
      (do
        let sender ← User.loadLogin (GHEvent.GetSender e)
        let repo ← Repository.loadName (GHEvent.GetRepo e)
        pure { Typ := typ, Sender := sender, Repo := repo })
      bot.pullRequestEventHooks w
  | .PullRequestReviewCommentEvent e =>
    logAndRunHooks bot.logger { line := 503 } ctx e
      (do
        let sender ← User.loadLogin (GHEvent.GetSender e)
        let repo ← Repository.loadName (GHEvent.GetRepo e)
        pure { Typ := typ, Sender := sender, Repo := repo })
      bot.pullRequestReviewCommentEventHooks w
  | .PullRequestReviewEvent e =>
    logAndRunHooks bot.logger { line := 515 } ctx e
      (do
        let sender ← User.loadLogin (GHEvent.GetSender e)
        let repo ← Repository.loadName (GHEvent.GetRepo e)
        pure { Typ := typ, Sender := sender, Repo := repo })
      bot.pullRequestReviewEventHooks w
  | .PushEvent e =>
    logAndRunHooks bot.logger { line := 527 } ctx e
      (do
        let sender ← User.loadLogin (GHEvent.GetSender e)
        let repo ← Repository.loadName (GHEvent.GetRepo e)
        pure { Typ := typ, Sender := sender, Repo := repo })
      bot.pushEventHooks w
  | .ReleaseEvent e =>
    logAndRunHooks bot.logger { line := 539 } ctx e
      (do
        let sender ← User.loadLogin (GHEvent.GetSender e)
        let repo ← Repository.loadName (GHEvent.GetRepo e)
        pure { Typ := typ, Sender := sender, Repo := repo })
      bot.releaseEventHooks w
  | .RepositoryEvent e =>
    logAndRunHooks bot.logger { line := 552 } ctx e
      (do
        let sender ← User.loadLogin (GHEvent.GetSender e)
        let org ← Organization.loadName (GHEvent.GetOrg e)
        let repo ← Repository.loadName (GHEvent.GetRepo e)
        pure { Typ := typ, Sender := sender, Org := org, Repo := repo })
      bot.repositoryEventHooks w
  | .RepositoryVulnerabilityAlertEvent e =>
    logAndRunHooks bot.logger { line := 562 } ctx e
      (pure { Typ := typ })
      bot.repositoryVulnerabilityAlertEventHooks w
  | .StarEvent e =>
    logAndRunHooks bot.logger { line := 572 } ctx e
      (pure { Typ := typ })
      bot.starEventHooks w
  | .StatusEvent e =>
    logAndRunHooks bot.logger { line := 584 } ctx e
      (do
        let sender ← User.loadLogin (GHEvent.GetSender e)
        let repo ← Repository.loadName (GHEvent.GetRepo e)
        pure { Typ := typ, Sender := sender, Repo := repo })
      bot.statusEventHooks w
  | .TeamAddEvent e =>
    logAndRunHooks bot.logger { line := 597 } ctx e
      (do
        let sender ← User.loadLogin (GHEvent.GetSender e)
        let org ← Organization.loadName (GHEvent.GetOrg e)
        let repo ← Repository.loadName (GHEvent.GetRepo e)
        pure { Typ := typ, Sender := sender, Org := org, Repo := repo })
      bot.teamAddEventHooks w
  | .TeamEvent e =>
    logAndRunHooks bot.logger { line := 610 } ctx e
      (do
        let sender ← User.loadLogin (GHEvent.GetSender e)
        let org ← Organization.loadName (GHEvent.GetOrg e)
        let repo ← Repository.loadName (GHEvent.GetRepo e)
        pure { Typ := typ, Sender := sender, Org := org, Repo := repo })
      bot.teamEventHooks w
  | .WatchEvent e =>
    logAndRunHooks bot.logger { line := 622 } ctx e
      (do
        let sender ← User.loadLogin (GHEvent.GetSender e)
        let repo ← Repository.loadName (GHEvent.GetRepo e)
        pure { Typ := typ, Sender := sender, Repo := repo })
      bot.watchEventHooks w
  | .other _ =>
    { world := bot.logger (.Printf "unsupported event type: %s" [.str typ]) w
      trace := [.log (.Printf "unsupported event type: %s" [.str typ])]
      result := .returned (some (xerrors.ErrorfS "unsupported event type: " typ { line := 627 })) }

/-! ## Registration -/

/-- Source: AddCheckRunEventHook appends the hook to bot.checkRunEventHooks. -/
def AddCheckRunEventHook (bot : Bot Ctx P W) (hook : CheckRunEventHook Ctx P W) : Bot Ctx P W :=
  { bot with checkRunEventHooks := bot.checkRunEventHooks ++ [hook] }

/-- Source: AddCheckSuiteEventHook appends the hook to bot.checkSuiteEventHooks. -/
def AddCheckSuiteEventHook (bot : Bot Ctx P W) (hook : CheckSuiteEventHook Ctx P W) : Bot Ctx P W :=
  { bot with checkSuiteEventHooks := bot.checkSuiteEventHooks ++ [hook] }

/-- Source: AddCommitCommentEventHook appends the hook to bot.commitCommentEventHooks. -/
def AddCommitCommentEventHook (bot : Bot Ctx P W) (hook : CommitCommentEventHook Ctx P W) : Bot Ctx P W :=
  { bot with commitCommentEventHooks := bot.commitCommentEventHooks ++ [hook] }

/-- Source: AddCreateEventHook appends the hook to bot.createEventHooks. -/
def AddCreateEventHook (bot : Bot Ctx P W) (hook : CreateEventHook Ctx P W) : Bot Ctx P W :=
  { bot with createEventHooks := bot.createEventHooks ++ [hook] }

/-- Source: AddDeleteEventHook appends the hook to bot.deleteEventHooks. -/
def AddDeleteEventHook (bot : Bot Ctx P W) (hook : DeleteEventHook Ctx P W) : Bot Ctx P W :=
  { bot with deleteEventHooks := bot.deleteEventHooks ++ [hook] }

/-- Source: AddDeployKeyEventHook appends the hook to bot.deployKeyEventHooks. -/
def AddDeployKeyEventHook (bot : Bot Ctx P W) (hook : DeployKeyEventHook Ctx P W) : Bot Ctx P W :=
  { bot with deployKeyEventHooks := bot.deployKeyEventHooks ++ [hook] }

/-- Source: AddDeploymentEventHook appends the hook to bot.deploymentEventHooks. -/
def AddDeploymentEventHook (bot : Bot Ctx P W) (hook : DeploymentEventHook Ctx P W) : Bot Ctx P W :=
  { bot with deploymentEventHooks := bot.deploymentEventHooks ++ [hook] }

/-- Source: AddDeploymentStatusEventHook appends the hook to bot.deploymentStatusEventHooks. -/
def AddDeploymentStatusEventHook (bot : Bot Ctx P W) (hook : DeploymentStatusEventHook Ctx P W) : Bot Ctx P W :=
  { bot with deploymentStatusEventHooks := bot.deploymentStatusEventHooks ++ [hook] }

/-- Source: AddForkEventHook appends the hook to bot.forkEventHooks. -/
def AddForkEventHook (bot : Bot Ctx P W) (hook : ForkEventHook Ctx P W) : Bot Ctx P W :=
  { bot with forkEventHooks := bot.forkEventHooks ++ [hook] }

/-- Source: AddGitHubAppAuthorizationEventHook appends the hook to bot.gitHubAppAuthorizationEventHooks. -/
def AddGitHubAppAuthorizationEventHook (bot : Bot Ctx P W) (hook : GitHubAppAuthorizationEventHook Ctx P W) : Bot Ctx P W :=
  { bot with gitHubAppAuthorizationEventHooks := bot.gitHubAppAuthorizationEventHooks ++ [hook] }

/-- Source: AddGollumEventHook appends the hook to bot.gollumEventHooks. -/
def AddGollumEventHook (bot : Bot Ctx P W) (hook : GollumEventHook Ctx P W) : Bot Ctx P W :=
  { bot with gollumEventHooks := bot.gollumEventHooks ++ [hook] }

/-- Source: AddInstallationEventHook appends the hook to bot.installationEventHooks. -/
def AddInstallationEventHook (bot : Bot Ctx P W) (hook : InstallationEventHook Ctx P W) : Bot Ctx P W :=
  { bot with installationEventHooks := bot.installationEventHooks ++ [hook] }

/-- Source: AddInstallationRepositoriesEventHook appends the hook to bot.installationRepositoriesEventHooks. -/
def AddInstallationRepositoriesEventHook (bot : Bot Ctx P W) (hook : InstallationRepositoriesEventHook Ctx P W) : Bot Ctx P W :=
  { bot with installationRepositoriesEventHooks := bot.installationRepositoriesEventHooks ++ [hook] }

/-- Source: AddIssueCommentEventHook appends the hook to bot.issueCommentEventHooks. -/
def AddIssueCommentEventHook (bot : Bot Ctx P W) (hook : IssueCommentEventHook Ctx P W) : Bot Ctx P W :=
  { bot with issueCommentEventHooks := bot.issueCommentEventHooks ++ [hook] }

/-- Source: AddIssueEventHook appends the hook to bot.issueEventHooks. -/
def AddIssueEventHook (bot : Bot Ctx P W) (hook : IssueEventHook Ctx P W) : Bot Ctx P W :=
  { bot with issueEventHooks := bot.issueEventHooks ++ [hook] }

/-- Source: AddIssuesEventHook appends the hook to bot.issuesEventHooks. -/
def AddIssuesEventHook (bot : Bot Ctx P W) (hook : IssuesEventHook Ctx P W) : Bot Ctx P W :=
  { bot with issuesEventHooks := bot.issuesEventHooks ++ [hook] }

/-- Source: AddLabelEventHook appends the hook to bot.labelEventHooks. -/
def AddLabelEventHook (bot : Bot Ctx P W) (hook : LabelEventHook Ctx P W) : Bot Ctx P W :=
  { bot with labelEventHooks := bot.labelEventHooks ++ [hook] }

/-- Source: AddMarketplacePurchaseEventHook appends the hook to bot.marketplacePurchaseEventHooks. -/
def AddMarketplacePurchaseEventHook (bot : Bot Ctx P W) (hook : MarketplacePurchaseEventHook Ctx P W) : Bot Ctx P W :=
  { bot with marketplacePurchaseEventHooks := bot.marketplacePurchaseEventHooks ++ [hook] }

/-- Source: AddMemberEventHook appends the hook to bot.memberEventHooks. -/
def AddMemberEventHook (bot : Bot Ctx P W) (hook : MemberEventHook Ctx P W) : Bot Ctx P W :=
  { bot with memberEventHooks := bot.memberEventHooks ++ [hook] }

/-- Source: AddMembershipEventHook appends the hook to bot.membershipEventHooks. -/
def AddMembershipEventHook (bot : Bot Ctx P W) (hook : MembershipEventHook Ctx P W) : Bot Ctx P W :=
  { bot with membershipEventHooks := bot.membershipEventHooks ++ [hook] }

/-- Source: AddMetaEventHook appends the hook to bot.metaEventHooks. -/
def AddMetaEventHook (bot : Bot Ctx P W) (hook : MetaEventHook Ctx P W) : Bot Ctx P W :=
  { bot with metaEventHooks := bot.metaEventHooks ++ [hook] }

/-- Source: AddMilestoneEventHook appends the hook to bot.milestoneEventHooks. -/
def AddMilestoneEventHook (bot : Bot Ctx P W) (hook : MilestoneEventHook Ctx P W) : Bot Ctx P W :=
  { bot with milestoneEventHooks := bot.milestoneEventHooks ++ [hook] }

/-- Source: AddOrgBlockEventHook appends the hook to bot.orgBlockEventHooks. -/
def AddOrgBlockEventHook (bot : Bot Ctx P W) (hook : OrgBlockEventHook Ctx P W) : Bot Ctx P W :=
  { bot with orgBlockEventHooks := bot.orgBlockEventHooks ++ [hook] }

/-- Source: AddOrganizationEventHook appends the hook to bot.organizationEventHooks. -/
def AddOrganizationEventHook (bot : Bot Ctx P W) (hook : OrganizationEventHook Ctx P W) : Bot Ctx P W :=
  { bot with organizationEventHooks := bot.organizationEventHooks ++ [hook] }

/-- Source: AddPageBuildEventHook appends the hook to bot.pageBuildEventHooks. -/
def AddPageBuildEventHook (bot : Bot Ctx P W) (hook : PageBuildEventHook Ctx P W) : Bot Ctx P W :=
  { bot with pageBuildEventHooks := bot.pageBuildEventHooks ++ [hook] }

/-- Source: AddPingEventHook appends the hook to bot.pingEventHooks. -/
def AddPingEventHook (bot : Bot Ctx P W) (hook : PingEventHook Ctx P W) : Bot Ctx P W :=
  { bot with pingEventHooks := bot.pingEventHooks ++ [hook] }

/-- Source: AddProjectCardEventHook appends the hook to bot.projectCardEventHooks. -/
def AddProjectCardEventHook (bot : Bot Ctx P W) (hook : ProjectCardEventHook Ctx P W) : Bot Ctx P W :=
  { bot with projectCardEventHooks := bot.projectCardEventHooks ++ [hook] }

/-- Source: AddProjectColumnEventHook appends the hook to bot.projectColumnEventHooks. -/
def AddProjectColumnEventHook (bot : Bot Ctx P W) (hook : ProjectColumnEventHook Ctx P W) : Bot Ctx P W :=
  { bot with projectColumnEventHooks := bot.projectColumnEventHooks ++ [hook] }

/-- Source: AddProjectEventHook appends the hook to bot.projectEventHooks. -/
def AddProjectEventHook (bot : Bot Ctx P W) (hook : ProjectEventHook Ctx P W) : Bot Ctx P W :=
  { bot with projectEventHooks := bot.projectEventHooks ++ [hook] }

/-- Source: AddPublicEventHook appends the hook to bot.publicEventHooks. -/
def AddPublicEventHook (bot : Bot Ctx P W) (hook : PublicEventHook Ctx P W) : Bot Ctx P W :=
  { bot with publicEventHooks := bot.publicEventHooks ++ [hook] }

/-- Source: AddPullRequestEventHook appends the hook to bot.pullRequestEventHooks. -/
def AddPullRequestEventHook (bot : Bot Ctx P W) (hook : PullRequestEventHook Ctx P W) : Bot Ctx P W :=
  { bot with pullRequestEventHooks := bot.pullRequestEventHooks ++ [hook] }

/-- Source: AddPullRequestReviewCommentEventHook appends the hook to bot.pullRequestReviewCommentEventHooks. -/
def AddPullRequestReviewCommentEventHook (bot : Bot Ctx P W) (hook : PullRequestReviewCommentEventHook Ctx P W) : Bot Ctx P W :=
  { bot with pullRequestReviewCommentEventHooks := bot.pullRequestReviewCommentEventHooks ++ [hook] }

/-- Source: AddPullRequestReviewEventHook appends the hook to bot.pullRequestReviewEventHooks. -/
def AddPullRequestReviewEventHook (bot : Bot Ctx P W) (hook : PullRequestReviewEventHook Ctx P W) : Bot Ctx P W :=
  { bot with pullRequestReviewEventHooks := bot.pullRequestReviewEventHooks ++ [hook] }

/-- Source: AddPushEventHook appends the hook to bot.pushEventHooks. -/
def AddPushEventHook (bot : Bot Ctx P W) (hook : PushEventHook Ctx P W) : Bot Ctx P W :=
  { bot with pushEventHooks := bot.pushEventHooks ++ [hook] }

/-- Source: AddReleaseEventHook appends the hook to bot.releaseEventHooks. -/
def AddReleaseEventHook (bot : Bot Ctx P W) (hook : ReleaseEventHook Ctx P W) : Bot Ctx P W :=
  { bot with releaseEventHooks := bot.releaseEventHooks ++ [hook] }

/-- Source: AddRepositoryEventHook appends the hook to bot.repositoryEventHooks. -/
def AddRepositoryEventHook (bot : Bot Ctx P W) (hook : RepositoryEventHook Ctx P W) : Bot Ctx P W :=
  { bot with repositoryEventHooks := bot.repositoryEventHooks ++ [hook] }

/-- Source: AddRepositoryVulnerabilityAlertEventHook appends the hook to bot.repositoryVulnerabilityAlertEventHooks. -/
def AddRepositoryVulnerabilityAlertEventHook (bot : Bot Ctx P W) (hook : RepositoryVulnerabilityAlertEventHook Ctx P W) : Bot Ctx P W :=
  { bot with repositoryVulnerabilityAlertEventHooks := bot.repositoryVulnerabilityAlertEventHooks ++ [hook] }

/-- Source: AddStarEventHook appends the hook to bot.starEventHooks. -/
def AddStarEventHook (bot : Bot Ctx P W) (hook : StarEventHook Ctx P W) : Bot Ctx P W :=
  { bot with starEventHooks := bot.starEventHooks ++ [hook] }

/-- Source: AddStatusEventHook appends the hook to bot.statusEventHooks. -/
def AddStatusEventHook (bot : Bot Ctx P W) (hook : StatusEventHook Ctx P W) : Bot Ctx P W :=
  { bot with statusEventHooks := bot.statusEventHooks ++ [hook] }

/-- Source: AddTeamAddEventHook appends the hook to bot.teamAddEventHooks. -/
def AddTeamAddEventHook (bot : Bot Ctx P W) (hook : TeamAddEventHook Ctx P W) : Bot Ctx P W :=
  { bot with teamAddEventHooks := bot.teamAddEventHooks ++ [hook] }

/-- Source: AddTeamEventHook appends the hook to bot.teamEventHooks. -/
def AddTeamEventHook (bot : Bot Ctx P W) (hook : TeamEventHook Ctx P W) : Bot Ctx P W :=
  { bot with teamEventHooks := bot.teamEventHooks ++ [hook] }

/-- Source: AddWatchEventHook appends the hook to bot.watchEventHooks. -/
def AddWatchEventHook (bot : Bot Ctx P W) (hook : WatchEventHook Ctx P W) : Bot Ctx P W :=
  { bot with watchEventHooks := bot.watchEventHooks ++ [hook] }

/-! ## The event kinds as one enumeration

The source has one struct member, one registration method and one branch per
event type.  The definitions below index them by the name of the event type, so
that statements can quantify over the kind. -/

inductive EventKind where
  | CheckRunEvent
  | CheckSuiteEvent
  | CommitCommentEvent
  | CreateEvent
  | DeleteEvent
  | DeployKeyEvent
  | DeploymentEvent
  | DeploymentStatusEvent
  | ForkEvent
  | GitHubAppAuthorizationEvent
  | GollumEvent
  | InstallationEvent
  | InstallationRepositoriesEvent
  | IssueCommentEvent
  | IssueEvent
  | IssuesEvent
  | LabelEvent
  | MarketplacePurchaseEvent
  | MemberEvent
  | MembershipEvent
  | MetaEvent
  | MilestoneEvent
  | OrgBlockEvent
  | OrganizationEvent
  | PageBuildEvent
  | PingEvent
  | ProjectCardEvent
  | ProjectColumnEvent
  | ProjectEvent
  | PublicEvent
  | PullRequestEvent
  | PullRequestReviewCommentEvent
  | PullRequestReviewEvent
  | PushEvent
  | ReleaseEvent
  | RepositoryEvent
  | RepositoryVulnerabilityAlertEvent
  | StarEvent
  | StatusEvent
  | TeamAddEvent
  | TeamEvent
  | WatchEvent
  deriving DecidableEq, Repr

/-- The event of kind k: a pointer of type `*github.<k>`. -/
def Event.ofKind (k : EventKind) (e : Ptr (GHEvent P)) : Event P :=
  match k with
  | .CheckRunEvent => .CheckRunEvent e
  | .CheckSuiteEvent => .CheckSuiteEvent e
  | .CommitCommentEvent => .CommitCommentEvent e
  | .CreateEvent => .CreateEvent e
  | .DeleteEvent => .DeleteEvent e
  | .DeployKeyEvent => .DeployKeyEvent e
  | .DeploymentEvent => .DeploymentEvent e
  | .DeploymentStatusEvent => .DeploymentStatusEvent e
  | .ForkEvent => .ForkEvent e
  | .GitHubAppAuthorizationEvent => .GitHubAppAuthorizationEvent e
  | .GollumEvent => .GollumEvent e
  | .InstallationEvent => .InstallationEvent e
  | .InstallationRepositoriesEvent => .InstallationRepositoriesEvent e
  | .IssueCommentEvent => .IssueCommentEvent e
  | .IssueEvent => .IssueEvent e
  | .IssuesEvent => .IssuesEvent e
  | .LabelEvent => .LabelEvent e
  | .MarketplacePurchaseEvent => .MarketplacePurchaseEvent e
  | .MemberEvent => .MemberEvent e
  | .MembershipEvent => .MembershipEvent e
  | .MetaEvent => .MetaEvent e
  | .MilestoneEvent => .MilestoneEvent e
  | .OrgBlockEvent => .OrgBlockEvent e
  | .OrganizationEvent => .OrganizationEvent e
  | .PageBuildEvent => .PageBuildEvent e
  | .PingEvent => .PingEvent e
  | .ProjectCardEvent => .ProjectCardEvent e
  | .ProjectColumnEvent => .ProjectColumnEvent e
  | .ProjectEvent => .ProjectEvent e
  | .PublicEvent => .PublicEvent e
  | .PullRequestEvent => .PullRequestEvent e
  | .PullRequestReviewCommentEvent => .PullRequestReviewCommentEvent e
  | .PullRequestReviewEvent => .PullRequestReviewEvent e
  | .PushEvent => .PushEvent e
  | .ReleaseEvent => .ReleaseEvent e
  | .RepositoryEvent => .RepositoryEvent e
  | .RepositoryVulnerabilityAlertEvent => .RepositoryVulnerabilityAlertEvent e
  | .StarEvent => .StarEvent e
  | .StatusEvent => .StatusEvent e
  | .TeamAddEvent => .TeamAddEvent e
  | .TeamEvent => .TeamEvent e
  | .WatchEvent => .WatchEvent e

/-- The kind of an event value, none for a value the type switch does not name. -/
def Event.kind? : Event P → Option EventKind
  | .CheckRunEvent _ => some .CheckRunEvent
  | .CheckSuiteEvent _ => some .CheckSuiteEvent
  | .CommitCommentEvent _ => some .CommitCommentEvent
  | .CreateEvent _ => some .CreateEvent
  | .DeleteEvent _ => some .DeleteEvent
  | .DeployKeyEvent _ => some .DeployKeyEvent
  | .DeploymentEvent _ => some .DeploymentEvent
  | .DeploymentStatusEvent _ => some .DeploymentStatusEvent
  | .ForkEvent _ => some .ForkEvent
  | .GitHubAppAuthorizationEvent _ => some .GitHubAppAuthorizationEvent
  | .GollumEvent _ => some .GollumEvent
  | .InstallationEvent _ => some .InstallationEvent
  | .InstallationRepositoriesEvent _ => some .InstallationRepositoriesEvent
  | .IssueCommentEvent _ => some .IssueCommentEvent
  | .IssueEvent _ => some .IssueEvent
  | .IssuesEvent _ => some .IssuesEvent
  | .LabelEvent _ => some .LabelEvent
  | .MarketplacePurchaseEvent _ => some .MarketplacePurchaseEvent
  | .MemberEvent _ => some .MemberEvent
  | .MembershipEvent _ => some .MembershipEvent
  | .MetaEvent _ => some .MetaEvent
  | .MilestoneEvent _ => some .MilestoneEvent
  | .OrgBlockEvent _ => some .OrgBlockEvent
  | .OrganizationEvent _ => some .OrganizationEvent
  | .PageBuildEvent _ => some .PageBuildEvent
  | .PingEvent _ => some .PingEvent
  | .ProjectCardEvent _ => some .ProjectCardEvent
  | .ProjectColumnEvent _ => some .ProjectColumnEvent
  | .ProjectEvent _ => some .ProjectEvent
  | .PublicEvent _ => some .PublicEvent
  | .PullRequestEvent _ => some .PullRequestEvent
  | .PullRequestReviewCommentEvent _ => some .PullRequestReviewCommentEvent
  | .PullRequestReviewEvent _ => some .PullRequestReviewEvent
  | .PushEvent _ => some .PushEvent
  | .ReleaseEvent _ => some .ReleaseEvent
  | .RepositoryEvent _ => some .RepositoryEvent
  | .RepositoryVulnerabilityAlertEvent _ => some .RepositoryVulnerabilityAlertEvent
  | .StarEvent _ => some .StarEvent
  | .StatusEvent _ => some .StatusEvent
  | .TeamAddEvent _ => some .TeamAddEvent
  | .TeamEvent _ => some .TeamEvent
  | .WatchEvent _ => some .WatchEvent
  | .other _ => none

/-- The member `<k>Hooks` of the bot. -/
def Bot.hooksOf (bot : Bot Ctx P W) : EventKind → List (Hook Ctx P W)
  | .CheckRunEvent => bot.checkRunEventHooks
  | .CheckSuiteEvent => bot.checkSuiteEventHooks
  | .CommitCommentEvent => bot.commitCommentEventHooks
  | .CreateEvent => bot.createEventHooks
  | .DeleteEvent => bot.deleteEventHooks
  | .DeployKeyEvent => bot.deployKeyEventHooks
  | .DeploymentEvent => bot.deploymentEventHooks
  | .DeploymentStatusEvent => bot.deploymentStatusEventHooks
  | .ForkEvent => bot.forkEventHooks
  | .GitHubAppAuthorizationEvent => bot.gitHubAppAuthorizationEventHooks
  | .GollumEvent => bot.gollumEventHooks
  | .InstallationEvent => bot.installationEventHooks
  | .InstallationRepositoriesEvent => bot.installationRepositoriesEventHooks
  | .IssueCommentEvent => bot.issueCommentEventHooks
  | .IssueEvent => bot.issueEventHooks
  | .IssuesEvent => bot.issuesEventHooks
  | .LabelEvent => bot.labelEventHooks
  | .MarketplacePurchaseEvent => bot.marketplacePurchaseEventHooks
  | .MemberEvent => bot.memberEventHooks
  | .MembershipEvent => bot.membershipEventHooks
  | .MetaEvent => bot.metaEventHooks
  | .MilestoneEvent => bot.milestoneEventHooks
  | .OrgBlockEvent => bot.orgBlockEventHooks
  | .OrganizationEvent => bot.organizationEventHooks
  | .PageBuildEvent => bot.pageBuildEventHooks
  | .PingEvent => bot.pingEventHooks
  | .ProjectCardEvent => bot.projectCardEventHooks
  | .ProjectColumnEvent => bot.projectColumnEventHooks
  | .ProjectEvent => bot.projectEventHooks
  | .PublicEvent => bot.publicEventHooks
  | .PullRequestEvent => bot.pullRequestEventHooks
  | .PullRequestReviewCommentEvent => bot.pullRequestReviewCommentEventHooks
  | .PullRequestReviewEvent => bot.pullRequestReviewEventHooks
  | .PushEvent => bot.pushEventHooks
  | .ReleaseEvent => bot.releaseEventHooks
  | .RepositoryEvent => bot.repositoryEventHooks
  | .RepositoryVulnerabilityAlertEvent => bot.repositoryVulnerabilityAlertEventHooks
  | .StarEvent => bot.starEventHooks
  | .StatusEvent => bot.statusEventHooks
  | .TeamAddEvent => bot.teamAddEventHooks
  | .TeamEvent => bot.teamEventHooks
  | .WatchEvent => bot.watchEventHooks

/-- The method `Add<k>Hook`. -/
def Bot.register (k : EventKind) (hook : Hook Ctx P W) (bot : Bot Ctx P W) : Bot Ctx P W :=
  match k with
  | .CheckRunEvent => AddCheckRunEventHook bot hook
  | .CheckSuiteEvent => AddCheckSuiteEventHook bot hook
  | .CommitCommentEvent => AddCommitCommentEventHook bot hook
  | .CreateEvent => AddCreateEventHook bot hook
  | .DeleteEvent => AddDeleteEventHook bot hook
  | .DeployKeyEvent => AddDeployKeyEventHook bot hook
  | .DeploymentEvent => AddDeploymentEventHook bot hook
  | .DeploymentStatusEvent => AddDeploymentStatusEventHook bot hook
  | .ForkEvent => AddForkEventHook bot hook
  | .GitHubAppAuthorizationEvent => AddGitHubAppAuthorizationEventHook bot hook
  | .GollumEvent => AddGollumEventHook bot hook
  | .InstallationEvent => AddInstallationEventHook bot hook
  | .InstallationRepositoriesEvent => AddInstallationRepositoriesEventHook bot hook
  | .IssueCommentEvent => AddIssueCommentEventHook bot hook
  | .IssueEvent => AddIssueEventHook bot hook
  | .IssuesEvent => AddIssuesEventHook bot hook
  | .LabelEvent => AddLabelEventHook bot hook
  | .MarketplacePurchaseEvent => AddMarketplacePurchaseEventHook bot hook
  | .MemberEvent => AddMemberEventHook bot hook
  | .MembershipEvent => AddMembershipEventHook bot hook
  | .MetaEvent => AddMetaEventHook bot hook
  | .MilestoneEvent => AddMilestoneEventHook bot hook
  | .OrgBlockEvent => AddOrgBlockEventHook bot hook
  | .OrganizationEvent => AddOrganizationEventHook bot hook
  | .PageBuildEvent => AddPageBuildEventHook bot hook
  | .PingEvent => AddPingEventHook bot hook
  | .ProjectCardEvent => AddProjectCardEventHook bot hook
  | .ProjectColumnEvent => AddProjectColumnEventHook bot hook
  | .ProjectEvent => AddProjectEventHook bot hook
  | .PublicEvent => AddPublicEventHook bot hook
  | .PullRequestEvent => AddPullRequestEventHook bot hook
  | .PullRequestReviewCommentEvent => AddPullRequestReviewCommentEventHook bot hook
  | .PullRequestReviewEvent => AddPullRequestReviewEventHook bot hook
  | .PushEvent => AddPushEventHook bot hook
  | .ReleaseEvent => AddReleaseEventHook bot hook
  | .RepositoryEvent => AddRepositoryEventHook bot hook
  | .RepositoryVulnerabilityAlertEvent => AddRepositoryVulnerabilityAlertEventHook bot hook
  | .StarEvent => AddStarEventHook bot hook
  | .StatusEvent => AddStatusEventHook bot hook
  | .TeamAddEvent => AddTeamAddEventHook bot hook
  | .TeamEvent => AddTeamEventHook bot hook
  | .WatchEvent => AddWatchEventHook bot hook

/-- Reading of the source: the branch of kind k puts the sender login in the record. -/
def EventKind.logsSender : EventKind → Bool
  | .CheckRunEvent => true
  | .CheckSuiteEvent => true
  | .CommitCommentEvent => true
  | .CreateEvent => true
  | .DeleteEvent => true
  | .DeployKeyEvent => false
  | .DeploymentEvent => true
  | .DeploymentStatusEvent => true
  | .ForkEvent => true
  | .GitHubAppAuthorizationEvent => true
  | .GollumEvent => true
  | .InstallationEvent => true
  | .InstallationRepositoriesEvent => true
  | .IssueCommentEvent => true
  | .IssueEvent => false
  | .IssuesEvent => true
  | .LabelEvent => false
  | .MarketplacePurchaseEvent => true
  | .MemberEvent => true
  | .MembershipEvent => true
  | .MetaEvent => false
  | .MilestoneEvent => true
  | .OrgBlockEvent => true
  | .OrganizationEvent => true
  | .PageBuildEvent => true
  | .PingEvent => false
  | .ProjectCardEvent => true
  | .ProjectColumnEvent => true
  | .ProjectEvent => true
  | .PublicEvent => true
  | .PullRequestEvent => true
  | .PullRequestReviewCommentEvent => true
  | .PullRequestReviewEvent => true
  | .PushEvent => true
  | .ReleaseEvent => true
  | .RepositoryEvent => true
  | .RepositoryVulnerabilityAlertEvent => false
  | .StarEvent => false
  | .StatusEvent => true
  | .TeamAddEvent => true
  | .TeamEvent => true
  | .WatchEvent => true

/-- Reading of the source: the branch of kind k puts the organization name in the record. -/
def EventKind.logsOrg : EventKind → Bool
  | .CheckRunEvent => true
  | .CheckSuiteEvent => true
  | .CommitCommentEvent => false
  | .CreateEvent => false
  | .DeleteEvent => false
  | .DeployKeyEvent => false
  | .DeploymentEvent => false
  | .DeploymentStatusEvent => false
  | .ForkEvent => false
  | .GitHubAppAuthorizationEvent => false
  | .GollumEvent => false
  | .InstallationEvent => false
  | .InstallationRepositoriesEvent => false
  | .IssueCommentEvent => false
  | .IssueEvent => false
  | .IssuesEvent => false
  | .LabelEvent => true
  | .MarketplacePurchaseEvent => false
  | .MemberEvent => false
  | .MembershipEvent => true
  | .MetaEvent => false
  | .MilestoneEvent => true
  | .OrgBlockEvent => false
  | .OrganizationEvent => false
  | .PageBuildEvent => false
  | .PingEvent => false
  | .ProjectCardEvent => true
  | .ProjectColumnEvent => true
  | .ProjectEvent => true
  | .PublicEvent => false
  | .PullRequestEvent => false
  | .PullRequestReviewCommentEvent => false
  | .PullRequestReviewEvent => false
  | .PushEvent => false
  | .ReleaseEvent => false
  | .RepositoryEvent => true
  | .RepositoryVulnerabilityAlertEvent => false
  | .StarEvent => false
  | .StatusEvent => false
  | .TeamAddEvent => true
  | .TeamEvent => true
  | .WatchEvent => false

/-- Reading of the source: the branch of kind k puts the repository name in the record. -/
def EventKind.logsRepo : EventKind → Bool
  | .CheckRunEvent => true
  | .CheckSuiteEvent => true
  | .CommitCommentEvent => true
  | .CreateEvent => true
  | .DeleteEvent => true
  | .DeployKeyEvent => false
  | .DeploymentEvent => true
  | .DeploymentStatusEvent => true
  | .ForkEvent => true
  | .GitHubAppAuthorizationEvent => false
  | .GollumEvent => true
  | .InstallationEvent => false
  | .InstallationRepositoriesEvent => false
  | .IssueCommentEvent => true
  | .IssueEvent => false
  | .IssuesEvent => true
  | .LabelEvent => true
  | .MarketplacePurchaseEvent => false
  | .MemberEvent => true
  | .MembershipEvent => false
  | .MetaEvent => false
  | .MilestoneEvent => true
  | .OrgBlockEvent => false
  | .OrganizationEvent => false
  | .PageBuildEvent => true
  | .PingEvent => false
  | .ProjectCardEvent => true
  | .ProjectColumnEvent => true
  | .ProjectEvent => true
  | .PublicEvent => true
  | .PullRequestEvent => true
  | .PullRequestReviewCommentEvent => true
  | .PullRequestReviewEvent => true
  | .PushEvent => true
  | .ReleaseEvent => true
  | .RepositoryEvent => true
  | .RepositoryVulnerabilityAlertEvent => false
  | .StarEvent => false
  | .StatusEvent => true
  | .TeamAddEvent => true
  | .TeamEvent => true
  | .WatchEvent => true

/-- Reading of the source: the line on which the branch of kind k calls
`xerrors.Errorf("error on hook: %w", err)`. -/
def EventKind.errorfFrame : EventKind → Frame
  | .CheckRunEvent => { line := 140 }
  | .CheckSuiteEvent => { line := 153 }
  | .CommitCommentEvent => { line := 165 }
  | .CreateEvent => { line := 177 }
  | .DeleteEvent => { line := 189 }
  | .DeployKeyEvent => { line := 199 }
  | .DeploymentEvent => { line := 211 }
  | .DeploymentStatusEvent => { line := 223 }
  | .ForkEvent => { line := 235 }
  | .GitHubAppAuthorizationEvent => { line := 246 }
  | .GollumEvent => { line := 258 }
  | .InstallationEvent => { line := 269 }
  | .InstallationRepositoriesEvent => { line := 280 }
  | .IssueCommentEvent => { line := 292 }
  | .IssueEvent => { line := 302 }
  | .IssuesEvent => { line := 314 }
  | .LabelEvent => { line := 326 }
  | .MarketplacePurchaseEvent => { line := 337 }
  | .MemberEvent => { line := 349 }
  | .MembershipEvent => { line := 361 }
  | .MetaEvent => { line := 371 }
  | .MilestoneEvent => { line := 384 }
  | .OrgBlockEvent => { line := 395 }
  | .OrganizationEvent => { line := 406 }
  | .PageBuildEvent => { line := 418 }
  | .PingEvent => { line := 428 }
  | .ProjectCardEvent => { line := 441 }
  | .ProjectColumnEvent => { line := 454 }
  | .ProjectEvent => { line := 467 }
  | .PublicEvent => { line := 479 }
  | .PullRequestEvent => { line := 491 }
  | .PullRequestReviewCommentEvent => { line := 503 }
  | .PullRequestReviewEvent => { line := 515 }
  | .PushEvent => { line := 527 }
  | .ReleaseEvent => { line := 539 }
  | .RepositoryEvent => { line := 552 }
  | .RepositoryVulnerabilityAlertEvent => { line := 562 }
  | .StarEvent => { line := 572 }
  | .StatusEvent => { line := 584 }
  | .TeamAddEvent => { line := 597 }
  | .TeamEvent => { line := 610 }
  | .WatchEvent => { line := 622 }

/-- The trigger record of an event of kind k, by the three tables above: none when
a member that the branch dereferences is absent. -/
def triggerRecord (k : EventKind) (typ : String) (e : Ptr (GHEvent P)) : Option eventTriggerLog := do
  let sender ← if k.logsSender then User.loadLogin (GHEvent.GetSender e) else pure ""
  let org ← if k.logsOrg then Organization.loadName (GHEvent.GetOrg e) else pure ""
  let repo ← if k.logsRepo then Repository.loadName (GHEvent.GetRepo e) else pure ""
  pure { Typ := typ, Sender := sender, Org := org, Repo := repo }

/-! ## Reading traces -/

/-- The error returned by the call an action records: none for a logger call and
for a hook that returned nil. -/
def Action.failure : Action Ctx P W → Option GoError
  | .log _ => none
  | .invoke _ _ _ ret => ret

def Action.isLog : Action Ctx P W → Bool
  | .log _ => true
  | .invoke _ _ _ _ => false

def Action.isInvoke : Action Ctx P W → Bool
  | .log _ => false
  | .invoke _ _ _ _ => true

/-- The trace of calling each hook of the list with (ctx, e), each returning nil. -/
def okCalls (ctx : Ctx) (e : Ptr (GHEvent P)) (hooks : List (Hook Ctx P W)) : List (Action Ctx P W) :=
  hooks.map (fun hook => Action.invoke hook ctx e none)

/-- The world after calling each hook of the list in order. -/
def worldAfter (ctx : Ctx) (e : Ptr (GHEvent P)) : List (Hook Ctx P W) → W → W
  | [], w => w
  | hook :: rest, w => worldAfter ctx e rest (hook ctx e w).1

/-! ## Sample values

The world of the samples is a journal: every hook and the logger append one
line to it. -/

namespace Sample

/-- A hook that writes its name to the journal and returns nil. -/
def ok (name : String) : Hook Unit Unit (List String) :=
  fun _ _ w => (w ++ [name], none)

/-- A hook that writes its name to the journal and returns the error msg. -/
def failing (name msg : String) : Hook Unit Unit (List String) :=
  fun _ _ w => (w ++ [name], some (.errorString msg))

/-- A logger that writes one line per call to the journal. -/
def journal : Logger (List String) :=
  fun _ w => w ++ ["log"]

def octocat : Ptr User := some { Login := some "octocat" }

def helloWorld : Ptr Repository := some { Name := some "hello-world" }

/-- An event with sender and repository, without organization: a delivery
for a repository owned by a user. -/
def userRepoEvent : Ptr (GHEvent Unit) :=
  some { Sender := octocat, Org := none, Repo := helloWorld, payload := () }

/-- An event whose organization object has no name member. -/
def unnamedOrgEvent : Ptr (GHEvent Unit) :=
  some { Sender := octocat, Org := some { Name := none }, Repo := helloWorld, payload := () }

/-- An event with sender, organization and repository names. -/
def fullEvent : Ptr (GHEvent Unit) :=
  some { Sender := octocat, Org := some { Name := some "github" }, Repo := helloWorld, payload := () }

/-- A fresh bot with the journal logger. -/
def bot0 : Bot Unit Unit (List String) :=
  SetLogger (New { WebHookSecret := "secret" }) journal

end Sample

/-! ## The HTTP handler -/

def http.MethodPost : String := "POST"

def http.StatusOK : Nat := 200

def http.StatusBadRequest : Nat := 400

def http.StatusMethodNotAllowed : Nat := 405

def http.StatusInternalServerError : Nat := 500

/-- The request as the handler reads it: the method, the context, and the rest
(headers and body), which only the go-github functions read. -/
structure Request (Ctx R : Type) where
  Method : String
  Context : Ctx
  raw : R

/-- The functions of go-github called by the handler, as parameters: signature
check, discriminator header, decoder.  Each either returns a value or an error. -/
structure GoGitHub (Ctx R L P : Type) where
  ValidatePayload : Request Ctx R → ByteArray → Except GoError L
  WebHookType : Request Ctx R → String
  ParseWebHook : String → L → Except GoError (Event P)

/-- What a call of the handler did: the world after it, the trace of the dispatch
it made (empty when it made none), the status codes passed to WriteHeader in
order, and whether the call ended in a panic instead of returning. -/
structure Handled (Ctx P W : Type) where
  world : W
  trace : List (Action Ctx P W)
  written : List Nat
  panicked : Bool

/-- Source: Bot.githubWebHookHandler. -/
def githubWebHookHandler {R L : Type} (gh : GoGitHub Ctx R L P) (bot : Bot Ctx P W)
    (r : Request Ctx R) (w : W) : Handled Ctx P W :=
  if r.Method ≠ http.MethodPost then
    { world := w, trace := [], written := [http.StatusMethodNotAllowed], panicked := false }
  else
    match gh.ValidatePayload r bot.webhookSecret with
    | .error _ =>
      { world := w, trace := [], written := [http.StatusBadRequest], panicked := false }
    | .ok payload =>
      match gh.ParseWebHook (gh.WebHookType r) payload with
      | .error _ =>
        { world := w, trace := [], written := [http.StatusBadRequest], panicked := false }
      | .ok event =>
        match handleWebHookEvent bot r.Context (gh.WebHookType r) event w with
        | { world := w1, trace := tr, result := .panicked } =>
          { world := w1, trace := tr, written := [], panicked := true }
        | { world := w1, trace := tr, result := .returned (some _) } =>
          { world := w1, trace := tr, written := [http.StatusInternalServerError],
            panicked := false }
        | { world := w1, trace := tr, result := .returned none } =>
          { world := w1, trace := tr, written := [http.StatusOK], panicked := false }

/-! ## Sequences of calls on one bot -/

/-- One call on the bot: a registration method, SetLogger, or handleWebHookEvent. -/
inductive Op (Ctx P W : Type) where
  | AddHook (k : EventKind) (hook : Hook Ctx P W)
  | SetLogger (logger : Logger W)
  | dispatch (ctx : Ctx) (typ : String) (event : Event P)

/-- The bot together with the world its hooks and logger act on. -/
structure State (Ctx P W : Type) where
  bot : Bot Ctx P W
  world : W

/-- The state after one call.  The registration methods and SetLogger assign one
member of the bot; handleWebHookEvent assigns no member of the bot, it acts on
the world through the logger and the hooks. -/
def Op.apply (op : Op Ctx P W) (s : State Ctx P W) : State Ctx P W :=
  match op with
  | .AddHook k hook => { bot := s.bot.register k hook, world := s.world }
  | .SetLogger logger => { bot := Ghbot.SetLogger s.bot logger, world := s.world }
  | .dispatch ctx typ event =>
    { bot := s.bot, world := (handleWebHookEvent s.bot ctx typ event s.world).world }

/-- The state after a sequence of calls, first call first. -/
def run : List (Op Ctx P W) → State Ctx P W → State Ctx P W
  | [], s => s
  | op :: ops, s => run ops (op.apply s)

/-- The hooks passed to the registration method of kind k in a sequence of calls,
in call order. -/
def registered (k : EventKind) : List (Op Ctx P W) → List (Hook Ctx P W)
  | [] => []
  | .AddHook k1 hook :: ops => if k1 = k then hook :: registered k ops else registered k ops
  | .SetLogger _ :: ops => registered k ops
  | .dispatch _ _ _ :: ops => registered k ops

/-! ## JSON objects -/

/-- One member of a JSON object: the quoted name, a colon, the quoted value. -/
def json.member (kv : String × String) : String :=
  json.quote kv.1 ++ ":" ++ json.quote kv.2

/-- Members separated by commas. -/
def json.members : List (String × String) → String
  | [] => ""
  | [kv] => json.member kv
  | kv :: rest => json.member kv ++ "," ++ json.members rest

/-- A JSON object whose members are strings, rendered in the order given. -/
def json.object (members : List (String × String)) : String :=
  "\x7b" ++ json.members members ++ "\x7d"

/-- The members a trigger record is rendered with, following the struct tags:
type always, then sender, org and repo, each only when not empty. -/
def triggerLogMembers (etl : eventTriggerLog) : List (String × String) :=
  ("type", etl.Typ) ::
    [("sender", etl.Sender), ("org", etl.Org), ("repo", etl.Repo)].filter (fun kv => kv.2 ≠ "")

namespace Sample

/-- The rest of a sample request: whether the signature matches the secret, the
discriminator header, and the event the body decodes to (none when the body
does not parse). -/
structure Raw where
  signed : Bool
  eventType : String
  body : Option (Event Unit)

/-- A stand-in for go-github on sample requests. -/
def gh : GoGitHub Unit Raw Raw Unit where
  ValidatePayload := fun r _ =>
    if r.raw.signed then .ok r.raw else .error (.errorString "payload signature check failed")
  WebHookType := fun r => r.raw.eventType
  ParseWebHook := fun _ payload =>
    match payload.body with
    | some event => .ok event
    | none => .error (.errorString "unknown X-Github-Event in message")

/-- A signed POST request carrying the event. -/
def post (eventType : String) (event : Event Unit) : Request Unit Raw :=
  { Method := "POST", Context := (), raw := { signed := true, eventType := eventType, body := some event } }

end Sample

/-! ## Hooks that register hooks

A hook is a closure and may hold the bot: while it runs it may call a
registration method.  Such a hook is embedded as a function that also yields the
registration calls it made.  The calls made so far in a dispatch are kept next to
the world, so that `handleWebHookEvent` runs these hooks unchanged: its loop
iterates the list it read from the bot when the loop began (the range expression
of a Go `for` is evaluated once), and the registration calls act on the bot. -/

/-- A hook that may call registration methods of the bot while it runs.  Besides
its effect on the world and its result it yields the registration calls it made,
in order: the kind and the hook passed. -/
inductive ReHook (Ctx P W : Type) where
  | mk (call : Ctx → Ptr (GHEvent P) → W →
      W × Option GoError × List (EventKind × ReHook Ctx P W))

def ReHook.call : ReHook Ctx P W → Ctx → Ptr (GHEvent P) → W →
    W × Option GoError × List (EventKind × ReHook Ctx P W)
  | .mk f => f

/-- The world of a dispatch whose hooks may register hooks: the world proper and
the registration calls made so far, in order. -/
abbrev ReWorld (Ctx P W : Type) := W × List (EventKind × ReHook Ctx P W)

/-- A registering hook as a hook on the extended world: the registration calls it
makes are added after the calls made so far. -/
def ReHook.lift (h : ReHook Ctx P W) : Hook Ctx P (ReWorld Ctx P W) :=
  fun ctx e s =>
    match h.call ctx e s.1 with
    | (w1, err, regs) => ((w1, s.2 ++ regs), err)

/-- A logger on the extended world: it acts on the world proper. -/
def liftLogger (logger : Logger W) : Logger (ReWorld Ctx P W) :=
  fun call s => (logger call s.1, s.2)

/-- State of `bot.mu`. -/
inductive Mutex where
  | free
  | held
  deriving DecidableEq, Repr

/-- Source: the lines `bot.mu.Lock()` and `defer bot.mu.Unlock()` that open every
registration method, around the append.  On a free mutex the hook is appended and
the mutex is free again on return; on a held mutex Lock never returns (none). -/
def AddHookLocked (mu : Mutex) (k : EventKind) (hook : Hook Ctx P W) (bot : Bot Ctx P W) :
    Option (Bot Ctx P W × Mutex) :=
  match mu with
  | .held => none
  | .free => some (bot.register k hook, .free)

/-- The registration calls of a list, made in order on the bot: none when one of
them blocks. -/
def applyRegistrations (mu : Mutex) :
    List (EventKind × ReHook Ctx P W) → Bot Ctx P (ReWorld Ctx P W) →
      Option (Bot Ctx P (ReWorld Ctx P W) × Mutex)
  | [], bot => some (bot, mu)
  | (k, h) :: rest, bot =>
    match AddHookLocked mu k h.lift bot with
    | none => none
    | some (bot1, mu1) => applyRegistrations mu1 rest bot1

/-- A call of handleWebHookEvent on a bot whose hooks may register hooks, with the
mutex in state mu when the call begins.  handleWebHookEvent never locks bot.mu,
so a registration call made by a running hook finds the mutex in state mu.  The
result is the bot and the mutex after the call together with the outcome of the
dispatch, or none when a registration call blocks. -/
def dispatchReentrant (bot : Bot Ctx P (ReWorld Ctx P W)) (mu : Mutex) (ctx : Ctx) (typ : String)
    (event : Event P) (w : W) :
    Option (Bot Ctx P (ReWorld Ctx P W) × Mutex × Outcome Ctx P (ReWorld Ctx P W)) :=
  match applyRegistrations mu (handleWebHookEvent bot ctx typ event (w, [])).world.2 bot with
  | none => none
  | some (bot1, mu1) => some (bot1, mu1, handleWebHookEvent bot ctx typ event (w, []))

/-- The hooks passed for kind k in a list of registration calls, in call order. -/
def registrationsFor (k : EventKind) :
    List (EventKind × ReHook Ctx P W) → List (ReHook Ctx P W)
  | [] => []
  | (k1, h) :: rest => if k1 = k then h :: registrationsFor k rest else registrationsFor k rest

namespace Sample

/-- A logger that writes the text it is given by Println to the journal. -/
def recorder : Logger (List String) :=
  fun call w =>
    match call with
    | .Println [.str s] => w ++ [s]
    | _ => w ++ ["log"]

/-- A hook that returns the error msg when the journal holds the line, and nil
otherwise. -/
def failsOnLine (line msg : String) : Hook Unit Unit (List String) :=
  fun _ _ w => (w, if line ∈ w then some (.errorString msg) else none)

/-- A registering hook that registers nothing: it writes its name to the journal
and returns nil. -/
def plain (name : String) : ReHook Unit Unit (List String) :=
  .mk (fun _ _ w => (w ++ [name], none, []))

/-- A hook that writes its name to the journal, calls the registration method of
kind k with the hook h1, and returns nil. -/
def registering (name : String) (k : EventKind) (h1 : ReHook Unit Unit (List String)) :
    ReHook Unit Unit (List String) :=
  .mk (fun _ _ w => (w ++ [name], none, [(k, h1)]))

/-- A fresh bot for registering hooks, with the journal logger. -/
def rebot0 : Bot Unit Unit (ReWorld Unit Unit (List String)) :=
  SetLogger (New { WebHookSecret := "secret" }) (liftLogger journal)

end Sample

/-! ## The switch, branch by branch -/

/-- Every branch of the type switch is the shared body applied to the trigger
record of its kind and to the hook list of its kind. -/
theorem handleWebHookEvent_ofKind (bot : Bot Ctx P W) (ctx : Ctx) (typ : String) (k : EventKind)
    (e : Ptr (GHEvent P)) (w : W) :
    handleWebHookEvent bot ctx typ (Event.ofKind k e) w
      = logAndRunHooks bot.logger k.errorfFrame ctx e (triggerRecord k typ e) (bot.hooksOf k) w := by
  cases k <;> rfl

theorem Event.kind?_ofKind (k : EventKind) (e : Ptr (GHEvent P)) :
    (Event.ofKind k e).kind? = some k := by
  cases k <;> rfl

theorem Event.eq_ofKind_of_kind? (ev : Event P) (k : EventKind) (h : ev.kind? = some k) :
    ∃ e, ev = Event.ofKind k e := by
  cases ev <;> simp [Event.kind?] at h <;> subst h <;> exact ⟨_, rfl⟩

/-- Registration for kind k appends to the list of kind k. -/
theorem Bot.hooksOf_register_self (bot : Bot Ctx P W) (k : EventKind) (hook : Hook Ctx P W) :
    (bot.register k hook).hooksOf k = bot.hooksOf k ++ [hook] := by
  cases k <;> rfl

/-- Registration for kind x leaves the list of every other kind as it was. -/
theorem Bot.hooksOf_register_other (bot : Bot Ctx P W) (x y : EventKind) (hxy : x ≠ y)
    (hook : Hook Ctx P W) : (bot.register x hook).hooksOf y = bot.hooksOf y := by
  cases x <;> cases y <;> first | rfl | exact absurd rfl hxy

theorem Bot.logger_register (bot : Bot Ctx P W) (k : EventKind) (hook : Hook Ctx P W) :
    (bot.register k hook).logger = bot.logger := by
  cases k <;> rfl

theorem Bot.webhookSecret_register (bot : Bot Ctx P W) (k : EventKind) (hook : Hook Ctx P W) :
    (bot.register k hook).webhookSecret = bot.webhookSecret := by
  cases k <;> rfl

/-! ## The hook loop -/

@[simp] theorem Outcome.after_trace (a : Action Ctx P W) (o : Outcome Ctx P W) :
    (o.after a).trace = a :: o.trace := rfl

@[simp] theorem Outcome.after_result (a : Action Ctx P W) (o : Outcome Ctx P W) :
    (o.after a).result = o.result := rfl

@[simp] theorem Outcome.after_world (a : Action Ctx P W) (o : Outcome Ctx P W) :
    (o.after a).world = o.world := rfl

theorem runHooks_cons_ok (logger : Logger W) (fr : Frame) (ctx : Ctx) (e : Ptr (GHEvent P))
    (hook : Hook Ctx P W) (rest : List (Hook Ctx P W)) (w : W)
    (h : (hook ctx e w).2 = none) :
    runHooks logger fr ctx e (hook :: rest) w
      = (runHooks logger fr ctx e rest (hook ctx e w).1).after (.invoke hook ctx e none) := by
  cases hg : hook ctx e w with
  | mk w1 r =>
    rw [hg] at h
    cases h
    simp [runHooks, hg]

theorem runHooks_cons_err (logger : Logger W) (fr : Frame) (ctx : Ctx) (e : Ptr (GHEvent P))
    (hook : Hook Ctx P W) (rest : List (Hook Ctx P W)) (w : W) (c : GoError)
    (h : (hook ctx e w).2 = some c) :
    runHooks logger fr ctx e (hook :: rest) w
      = { world := logger (.Printf "error on hook: %+v" [.err c]) (hook ctx e w).1
          trace := [.invoke hook ctx e (some c), .log (.Printf "error on hook: %+v" [.err c])]
          result := .returned (some (xerrors.ErrorfW "error on hook" c fr)) } := by
  cases hg : hook ctx e w with
  | mk w1 r =>
    rw [hg] at h
    cases h
    simp [runHooks, hg]

/-- The loop never panics. -/
theorem runHooks_result (logger : Logger W) (fr : Frame) (ctx : Ctx) (e : Ptr (GHEvent P))
    (hooks : List (Hook Ctx P W)) (w : W) :
    ∃ r, (runHooks logger fr ctx e hooks w).result = .returned r := by
  induction hooks generalizing w with
  | nil => exact ⟨none, rfl⟩
  | cons hook rest ih =>
    cases hr : (hook ctx e w).2 with
    | none => rw [runHooks_cons_ok logger _ ctx e hook rest w hr]; exact ih _
    | some c => rw [runHooks_cons_err logger _ ctx e hook rest w c hr]; exact ⟨_, rfl⟩

/-- When every hook of the list returns nil, the loop calls each of them once, in
list order, with (ctx, e), logs nothing and ends with `return nil`. -/
theorem runHooks_all_succeed (logger : Logger W) (fr : Frame) (ctx : Ctx) (e : Ptr (GHEvent P))
    (hooks : List (Hook Ctx P W)) (w : W)
    (hok : ∀ g ∈ hooks, ∀ w1, (g ctx e w1).2 = none) :
    runHooks logger fr ctx e hooks w
      = { world := worldAfter ctx e hooks w, trace := okCalls ctx e hooks, result := .returned none } := by
  induction hooks generalizing w with
  | nil => rfl
  | cons hook rest ih =>
    rw [runHooks_cons_ok logger _ ctx e hook rest w (hok hook (List.mem_cons_self _ _) w),
      ih _ (fun g hg => hok g (List.mem_cons_of_mem _ hg))]
    rfl

/-- When the hooks before position i return nil and the hook at position i returns
the error c, the loop calls the hooks up to position i once each in list order,
logs the error, calls no later hook and returns c wrapped. -/
theorem runHooks_first_failure (logger : Logger W) (fr : Frame) (ctx : Ctx) (e : Ptr (GHEvent P))
    (pre : List (Hook Ctx P W)) (hook : Hook Ctx P W) (post : List (Hook Ctx P W)) (w : W)
    (c : GoError)
    (hpre : ∀ g ∈ pre, ∀ w1, (g ctx e w1).2 = none)
    (hfail : (hook ctx e (worldAfter ctx e pre w)).2 = some c) :
    runHooks logger fr ctx e (pre ++ hook :: post) w
      = { world := logger (.Printf "error on hook: %+v" [.err c])
            (hook ctx e (worldAfter ctx e pre w)).1
          trace := okCalls ctx e pre
            ++ [.invoke hook ctx e (some c), .log (.Printf "error on hook: %+v" [.err c])]
          result := .returned (some (xerrors.ErrorfW "error on hook" c fr)) } := by
  induction pre generalizing w with
  | nil => exact runHooks_cons_err logger _ ctx e hook post w c hfail
  | cons g rest ih =>
    rw [List.cons_append, runHooks_cons_ok logger _ ctx e g _ w (hpre g (List.mem_cons_self _ _) w),
      ih _ (fun g1 hg => hpre g1 (List.mem_cons_of_mem _ hg)) hfail]
    rfl

/-- When the hooks of pre return nil, the loop over pre followed by rest calls the
hooks of pre in order and then runs the loop over rest. -/
theorem runHooks_append_ok (logger : Logger W) (fr : Frame) (ctx : Ctx) (e : Ptr (GHEvent P))
    (pre rest : List (Hook Ctx P W)) (w : W)
    (hpre : ∀ g ∈ pre, ∀ w1, (g ctx e w1).2 = none) :
    runHooks logger fr ctx e (pre ++ rest) w
      = { world := (runHooks logger fr ctx e rest (worldAfter ctx e pre w)).world
          trace := okCalls ctx e pre ++ (runHooks logger fr ctx e rest (worldAfter ctx e pre w)).trace
          result := (runHooks logger fr ctx e rest (worldAfter ctx e pre w)).result } := by
  induction pre generalizing w with
  | nil => rfl
  | cons g tl ih =>
    rw [List.cons_append, runHooks_cons_ok logger _ ctx e g _ w (hpre g (List.mem_cons_self _ _) w),
      ih _ (fun g1 hg => hpre g1 (List.mem_cons_of_mem _ hg))]
    rfl

/-- The loop over a single hook calls it. -/
theorem runHooks_singleton_trace (logger : Logger W) (fr : Frame) (ctx : Ctx) (e : Ptr (GHEvent P))
    (hook : Hook Ctx P W) (w : W) :
    Action.invoke hook ctx e (hook ctx e w).2 ∈ (runHooks logger fr ctx e [hook] w).trace := by
  cases hr : (hook ctx e w).2 with
  | none => rw [runHooks_cons_ok logger _ ctx e hook [] w hr]; simp
  | some c => rw [runHooks_cons_err logger _ ctx e hook [] w c hr]; simp

/-- When the loop returns an error, that error wraps the error c returned by one
hook of the list; the hooks before it were called and returned nil, it was
called next, its error was logged, and nothing else happened. -/
theorem runHooks_error_inv (logger : Logger W) (fr : Frame) (ctx : Ctx) (e : Ptr (GHEvent P))
    (hooks : List (Hook Ctx P W)) (w : W) (err : GoError)
    (h : (runHooks logger fr ctx e hooks w).result = .returned (some err)) :
    ∃ pre hook post c, hooks = pre ++ hook :: post
      ∧ (hook ctx e (worldAfter ctx e pre w)).2 = some c
      ∧ err = xerrors.ErrorfW "error on hook" c fr
      ∧ (runHooks logger fr ctx e hooks w).trace = okCalls ctx e pre
          ++ [.invoke hook ctx e (some c), .log (.Printf "error on hook: %+v" [.err c])] := by
  induction hooks generalizing w with
  | nil => simp [runHooks] at h
  | cons g rest ih =>
    cases hr : (g ctx e w).2 with
    | none =>
      rw [runHooks_cons_ok logger _ ctx e g rest w hr] at h ⊢
      obtain ⟨pre, hook, post, c, hl, hc, he, ht⟩ := ih _ h
      refine ⟨g :: pre, hook, post, c, ?_, hc, he, ?_⟩
      · rw [hl]; rfl
      · rw [Outcome.after_trace, ht]; rfl
    | some c =>
      rw [runHooks_cons_err logger _ ctx e g rest w c hr] at h ⊢
      refine ⟨[], g, rest, c, rfl, hr, ?_, rfl⟩
      simp at h
      exact h.symm

/-- Every hook call in the trace of the loop is a call of a hook of the list, with
the context and the event given to the loop. -/
theorem runHooks_trace_mem (logger : Logger W) (fr : Frame) (ctx : Ctx) (e : Ptr (GHEvent P))
    (hooks : List (Hook Ctx P W)) (w : W) (g : Hook Ctx P W) (ctx1 : Ctx) (e1 : Ptr (GHEvent P))
    (ret : Option GoError)
    (h : Action.invoke g ctx1 e1 ret ∈ (runHooks logger fr ctx e hooks w).trace) :
    g ∈ hooks ∧ ctx1 = ctx ∧ e1 = e := by
  induction hooks generalizing w with
  | nil => simp [runHooks] at h
  | cons g0 rest ih =>
    cases hr : (g0 ctx e w).2 with
    | none =>
      rw [runHooks_cons_ok logger _ ctx e g0 rest w hr, Outcome.after_trace, List.mem_cons] at h
      rcases h with h | h
      · cases h
        exact ⟨List.mem_cons_self _ _, rfl, rfl⟩
      · obtain ⟨h1, h2, h3⟩ := ih _ h
        exact ⟨List.mem_cons_of_mem _ h1, h2, h3⟩
    | some c =>
      rw [runHooks_cons_err logger _ ctx e g0 rest w c hr] at h
      simp at h
      obtain ⟨h1, h2, h3, _⟩ := h
      subst h1 h2 h3
      exact ⟨List.mem_cons_self _ _, rfl, rfl⟩

/-! ## Dispatch of an event whose trigger record can be built -/

theorem logAndRunHooks_some (logger : Logger W) (fr : Frame) (ctx : Ctx) (e : Ptr (GHEvent P))
    (r : eventTriggerLog) (hooks : List (Hook Ctx P W)) (w : W) :
    logAndRunHooks logger fr ctx e (some r) hooks w
      = (runHooks logger fr ctx e hooks (logger (.Println [.str r.String]) w)).after
          (.log (.Println [.str r.String])) := rfl

theorem logAndRunHooks_none (logger : Logger W) (fr : Frame) (ctx : Ctx) (e : Ptr (GHEvent P))
    (hooks : List (Hook Ctx P W)) (w : W) :
    logAndRunHooks logger fr ctx e none hooks w = { world := w, trace := [], result := .panicked } :=
  rfl

/-- Fail-fast dispatch.  For an event of kind k whose trigger record r can be
built: when the hooks registered before position i return nil and the hook at
position i returns the error c, the call logs r, calls the hooks up to position
i once each in registration order with (ctx, e), logs the error, calls no later
hook and returns c wrapped. -/
theorem dispatch_first_failure (bot : Bot Ctx P W) (ctx : Ctx) (typ : String) (k : EventKind)
    (e : Ptr (GHEvent P)) (w : W) (r : eventTriggerLog)
    (pre : List (Hook Ctx P W)) (hook : Hook Ctx P W) (post : List (Hook Ctx P W)) (c : GoError)
    (hr : triggerRecord k typ e = some r)
    (hl : bot.hooksOf k = pre ++ hook :: post)
    (hpre : ∀ g ∈ pre, ∀ w1, (g ctx e w1).2 = none)
    (hfail : (hook ctx e (worldAfter ctx e pre (bot.logger (.Println [.str r.String]) w))).2
      = some c) :
    handleWebHookEvent bot ctx typ (Event.ofKind k e) w
      = { world := bot.logger (.Printf "error on hook: %+v" [.err c])
            (hook ctx e (worldAfter ctx e pre (bot.logger (.Println [.str r.String]) w))).1
          trace := .log (.Println [.str r.String]) :: (okCalls ctx e pre
            ++ [.invoke hook ctx e (some c), .log (.Printf "error on hook: %+v" [.err c])])
          result := .returned (some (xerrors.ErrorfW "error on hook" c k.errorfFrame)) } := by
  rw [handleWebHookEvent_ofKind, hr, hl, logAndRunHooks_some,
    runHooks_first_failure bot.logger _ ctx e pre hook post _ c hpre hfail]
  rfl

/-- Dispatch in registration order.  For an event of kind k whose trigger record r
can be built: when every hook registered for k returns nil, the call logs r,
calls each hook once in registration order with (ctx, e) and returns nil. -/
theorem dispatch_all_succeed (bot : Bot Ctx P W) (ctx : Ctx) (typ : String) (k : EventKind)
    (e : Ptr (GHEvent P)) (w : W) (r : eventTriggerLog)
    (hr : triggerRecord k typ e = some r)
    (hok : ∀ g ∈ bot.hooksOf k, ∀ w1, (g ctx e w1).2 = none) :
    handleWebHookEvent bot ctx typ (Event.ofKind k e) w
      = { world := worldAfter ctx e (bot.hooksOf k) (bot.logger (.Println [.str r.String]) w)
          trace := .log (.Println [.str r.String]) :: okCalls ctx e (bot.hooksOf k)
          result := .returned none } := by
  rw [handleWebHookEvent_ofKind, hr, logAndRunHooks_some,
    runHooks_all_succeed bot.logger _ ctx e _ _ hok]
  rfl

/-- Dispatch without hooks.  For an event of kind k whose trigger record r can be
built and an empty hook list: the call logs r and returns nil. -/
theorem dispatch_no_hooks (bot : Bot Ctx P W) (ctx : Ctx) (typ : String) (k : EventKind)
    (e : Ptr (GHEvent P)) (w : W) (r : eventTriggerLog)
    (hr : triggerRecord k typ e = some r) (hl : bot.hooksOf k = []) :
    handleWebHookEvent bot ctx typ (Event.ofKind k e) w
      = { world := bot.logger (.Println [.str r.String]) w
          trace := [.log (.Println [.str r.String])]
          result := .returned none } := by
  rw [handleWebHookEvent_ofKind, hr, hl]
  rfl

/-- The trigger record comes first.  For an event of kind k whose trigger record r
can be built, whatever the hooks do: the trace starts with the Println of r, and
the rest of the trace holds hook calls and at most the Printf of a hook error,
never a second Println. -/
theorem dispatch_trigger_log_first (bot : Bot Ctx P W) (ctx : Ctx) (typ : String) (k : EventKind)
    (e : Ptr (GHEvent P)) (w : W) (r : eventTriggerLog)
    (hr : triggerRecord k typ e = some r) :
    ∃ rest, (handleWebHookEvent bot ctx typ (Event.ofKind k e) w).trace
        = .log (.Println [.str r.String]) :: rest
      ∧ ∀ a ∈ rest, ∀ args, a ≠ .log (.Println args) := by
  rw [handleWebHookEvent_ofKind, hr, logAndRunHooks_some]
  refine ⟨_, rfl, ?_⟩
  generalize bot.logger (.Println [.str r.String]) w = w0
  induction bot.hooksOf k generalizing w0 with
  | nil => intro a ha; simp [runHooks] at ha
  | cons g rest ih =>
    cases hg : (g ctx e w0).2 with
    | none =>
      rw [runHooks_cons_ok bot.logger _ ctx e g rest w0 hg]
      intro a ha args
      rw [Outcome.after_trace, List.mem_cons] at ha
      rcases ha with ha | ha
      · subst ha; simp
      · exact ih _ a ha args
    | some c =>
      rw [runHooks_cons_err bot.logger _ ctx e g rest w0 c hg]
      intro a ha args
      simp at ha
      rcases ha with ha | ha <;> subst ha <;> simp

/-- No hook call precedes the trigger log.  For every event of a supported kind the
trace is either empty (the call panicked while building the record) or starts
with the Println of the record, which is not repeated. -/
theorem dispatch_trace_empty_or_log_first (bot : Bot Ctx P W) (ctx : Ctx) (typ : String)
    (k : EventKind) (e : Ptr (GHEvent P)) (w : W) :
    ((handleWebHookEvent bot ctx typ (Event.ofKind k e) w).trace = []
        ∧ (handleWebHookEvent bot ctx typ (Event.ofKind k e) w).result = .panicked)
    ∨ ∃ r rest, triggerRecord k typ e = some r
        ∧ (handleWebHookEvent bot ctx typ (Event.ofKind k e) w).trace
            = .log (.Println [.str r.String]) :: rest
        ∧ ∀ a ∈ rest, ∀ args, a ≠ .log (.Println args) := by
  cases hr : triggerRecord k typ e with
  | none =>
    left
    rw [handleWebHookEvent_ofKind, hr, logAndRunHooks_none]
    exact ⟨rfl, rfl⟩
  | some r =>
    right
    obtain ⟨rest, h1, h2⟩ := dispatch_trigger_log_first bot ctx typ k e w r hr
    exact ⟨r, rest, rfl, h1, h2⟩

/-- Registration for kind x does not change how an event of another kind y is
dispatched. -/
theorem handleWebHookEvent_register_other (bot : Bot Ctx P W) (x y : EventKind) (hxy : x ≠ y)
    (hook : Hook Ctx P W) (ctx : Ctx) (typ : String) (e : Ptr (GHEvent P)) (w : W) :
    handleWebHookEvent (bot.register x hook) ctx typ (Event.ofKind y e) w
      = handleWebHookEvent bot ctx typ (Event.ofKind y e) w := by
  rw [handleWebHookEvent_ofKind, handleWebHookEvent_ofKind, Bot.hooksOf_register_other bot x y hxy,
    Bot.logger_register]

/-- Registration does not change how a value outside the type switch is handled. -/
theorem handleWebHookEvent_register_unsupported (bot : Bot Ctx P W) (k : EventKind)
    (hook : Hook Ctx P W) (ctx : Ctx) (typ : String) (v : P) (w : W) :
    handleWebHookEvent (bot.register k hook) ctx typ (.other v) w
      = handleWebHookEvent bot ctx typ (.other v) w := by
  simp only [handleWebHookEvent, Bot.logger_register]

/-- A dereference of an absent member leaves no trigger record. -/
theorem triggerRecord_absent (k : EventKind) (typ : String) (e : Ptr (GHEvent P))
    (h : (k.logsSender = true ∧ User.loadLogin (GHEvent.GetSender e) = none)
      ∨ (k.logsOrg = true ∧ Organization.loadName (GHEvent.GetOrg e) = none)
      ∨ (k.logsRepo = true ∧ Repository.loadName (GHEvent.GetRepo e) = none)) :
    triggerRecord k typ e = none := by
  unfold triggerRecord
  rcases h with ⟨hk, hn⟩ | ⟨hk, hn⟩ | ⟨hk, hn⟩
  · simp [hk, hn]
  · cases (if k.logsSender = true then User.loadLogin (GHEvent.GetSender e) else pure "")
      <;> simp [hk, hn]
  · cases (if k.logsSender = true then User.loadLogin (GHEvent.GetSender e) else pure "")
      <;> cases (if k.logsOrg = true then Organization.loadName (GHEvent.GetOrg e) else pure "")
      <;> simp [hk, hn]

/-! ## Properties stated by the specification -/

/-- C1: the first failing hook stops the dispatch.  Evaluated on a check_run
delivery with the hooks H1 (returns nil) and H2 (returns the error boom)
registered in that order.  With sender, organization and repository names
present, H1 and then H2 are called once each and the wrapped error is returned.
For a repository owned by a user (no organization) the call panics on the
dereference in the trigger record: neither hook is called, nothing is returned. -/
theorem checkRun_first_failure_without_org :
    handleWebHookEvent
        (AddCheckRunEventHook (AddCheckRunEventHook Sample.bot0 (Sample.ok "H1"))
          (Sample.failing "H2" "boom"))
        () "check_run" (.CheckRunEvent Sample.fullEvent) []
      = { world := ["log", "H1", "H2", "log"]
          trace := [.log (.Println [.str (eventTriggerLog.String
                { Typ := "check_run", Sender := "octocat", Org := "github", Repo := "hello-world" })]),
            .invoke (Sample.ok "H1") () Sample.fullEvent none,
            .invoke (Sample.failing "H2" "boom") () Sample.fullEvent (some (.errorString "boom")),
            .log (.Printf "error on hook: %+v" [.err (.errorString "boom")])]
          result := .returned (some (.wrapError "error on hook" (.errorString "boom") { line := 140 })) }
    ∧ handleWebHookEvent
        (AddCheckRunEventHook (AddCheckRunEventHook Sample.bot0 (Sample.ok "H1"))
          (Sample.failing "H2" "boom"))
        () "check_run" (.CheckRunEvent Sample.userRepoEvent) []
      = { world := [], trace := [], result := .panicked } :=
  ⟨rfl, rfl⟩

/-- C2: hooks run in registration order.  Evaluated on a label delivery with the
hooks A, B, C (all return nil) registered in that order.  With organization and
repository names present, A, B, C are called once each in that order with the
same context and event and nil is returned.  For a repository owned by a user
(no organization) the call panics on the dereference in the trigger record: no
hook is called and nil is not returned. -/
theorem label_order_without_org :
    handleWebHookEvent
        (AddLabelEventHook (AddLabelEventHook (AddLabelEventHook Sample.bot0 (Sample.ok "A"))
          (Sample.ok "B")) (Sample.ok "C"))
        () "label" (.LabelEvent Sample.fullEvent) []
      = { world := ["log", "A", "B", "C"]
          trace := [.log (.Println [.str (eventTriggerLog.String
                { Typ := "label", Org := "github", Repo := "hello-world" })]),
            .invoke (Sample.ok "A") () Sample.fullEvent none,
            .invoke (Sample.ok "B") () Sample.fullEvent none,
            .invoke (Sample.ok "C") () Sample.fullEvent none]
          result := .returned none }
    ∧ handleWebHookEvent
        (AddLabelEventHook (AddLabelEventHook (AddLabelEventHook Sample.bot0 (Sample.ok "A"))
          (Sample.ok "B")) (Sample.ok "C"))
        () "label" (.LabelEvent Sample.userRepoEvent) []
      = { world := [], trace := [], result := .panicked } :=
  ⟨rfl, rfl⟩

/-- C3: dispatch with no hook registered.  A star delivery is logged once and
returns nil.  A repository delivery whose organization object has no name
member panics on the dereference in the trigger record: nothing is logged and
nil is not returned. -/
theorem repository_no_hooks_unnamed_org :
    handleWebHookEvent Sample.bot0 () "star" (.StarEvent Sample.unnamedOrgEvent) []
      = { world := ["log"]
          trace := [.log (.Println [.str (eventTriggerLog.String { Typ := "star" })])]
          result := .returned none }
    ∧ handleWebHookEvent Sample.bot0 () "repository" (.RepositoryEvent Sample.unnamedOrgEvent) []
      = { world := [], trace := [], result := .panicked } :=
  ⟨rfl, rfl⟩

/-- C4: a value that is not one of the event types of the switch.  Whatever the
discriminator typ and the registered hooks, the call makes exactly one logger
call, Printf with the format "unsupported event type: %s" and the argument typ,
calls no hook, and returns an error without cause whose message is
"unsupported event type: " followed by typ. -/
theorem unsupported_event_rejected (bot : Bot Ctx P W) (ctx : Ctx) (typ : String) (event : Event P)
    (w : W) (h : event.kind? = none) :
    (handleWebHookEvent bot ctx typ event w).trace
        = [.log (.Printf "unsupported event type: %s" [.str typ])]
    ∧ (∀ a ∈ (handleWebHookEvent bot ctx typ event w).trace, a.isInvoke = false)
    ∧ (handleWebHookEvent bot ctx typ event w).world
        = bot.logger (.Printf "unsupported event type: %s" [.str typ]) w
    ∧ ∃ err, (handleWebHookEvent bot ctx typ event w).result = .returned (some err)
        ∧ err.Error = "unsupported event type: " ++ typ
        ∧ err.Unwrap = none := by
  cases event <;> simp [Event.kind?] at h
  refine ⟨rfl, ?_, rfl, _, rfl, rfl, rfl⟩
  intro a ha
  simp [handleWebHookEvent] at ha
  subst ha
  rfl

theorem unsupported_event_rejected_witness :
    (Event.other () : Event Unit).kind? = none
    ∧ (handleWebHookEvent
          (AddPushEventHook Sample.bot0 (Sample.ok "H1")) () "not_a_real_kind" (.other ()) []).trace
        = [.log (.Printf "unsupported event type: %s" [.str "not_a_real_kind"])]
    ∧ ∃ err, (handleWebHookEvent
          (AddPushEventHook Sample.bot0 (Sample.ok "H1")) () "not_a_real_kind" (.other ()) []).result
          = .returned (some err)
        ∧ err.Error = "unsupported event type: " ++ "not_a_real_kind"
        ∧ err.Unwrap = none :=
  ⟨rfl,
    (unsupported_event_rejected (AddPushEventHook Sample.bot0 (Sample.ok "H1")) ()
      "not_a_real_kind" (.other ()) [] rfl).1,
    (unsupported_event_rejected (AddPushEventHook Sample.bot0 (Sample.ok "H1")) ()
      "not_a_real_kind" (.other ()) [] rfl).2.2.2⟩

/-- C5: the error of a failed dispatch wraps the cause of the first failing hook.
Whenever the call for an event of a supported kind returns an error err, the
hook list is pre, hook, post where every hook of pre was called and returned
nil, hook was called next and returned an error c, no hook of post was called,
and err wraps c: its message is "error on hook: " followed by the message of c
and unwrapping it gives c. -/
theorem hook_failure_wraps_first_cause (bot : Bot Ctx P W) (ctx : Ctx) (typ : String)
    (k : EventKind) (e : Ptr (GHEvent P)) (w : W) (err : GoError)
    (h : (handleWebHookEvent bot ctx typ (Event.ofKind k e) w).result = .returned (some err)) :
    ∃ r pre hook post c,
      triggerRecord k typ e = some r
      ∧ bot.hooksOf k = pre ++ hook :: post
      ∧ (hook ctx e (worldAfter ctx e pre (bot.logger (.Println [.str r.String]) w))).2 = some c
      ∧ (handleWebHookEvent bot ctx typ (Event.ofKind k e) w).trace
          = .log (.Println [.str r.String]) :: (okCalls ctx e pre
            ++ [.invoke hook ctx e (some c), .log (.Printf "error on hook: %+v" [.err c])])
      ∧ err.Error = "error on hook: " ++ c.Error
      ∧ err.Unwrap = some c := by
  rw [handleWebHookEvent_ofKind] at h ⊢
  cases hr : triggerRecord k typ e with
  | none => rw [hr, logAndRunHooks_none] at h; simp at h
  | some r =>
    rw [hr, logAndRunHooks_some, Outcome.after_result] at h
    obtain ⟨pre, hook, post, c, hl, hc, he, ht⟩ := runHooks_error_inv bot.logger _ ctx e _ _ err h
    refine ⟨r, pre, hook, post, c, rfl, hl, hc, ?_, ?_, ?_⟩
    · rw [logAndRunHooks_some, Outcome.after_trace, ht]
    · rw [he]; rfl
    · rw [he]; rfl

theorem hook_failure_wraps_first_cause_witness :
    (handleWebHookEvent
        (AddPushEventHook (AddPushEventHook Sample.bot0 (Sample.ok "H1"))
          (Sample.failing "H2" "boom"))
        () "push" (Event.ofKind .PushEvent Sample.fullEvent) []).result
      = .returned (some (.wrapError "error on hook" (.errorString "boom") { line := 527 }))
    ∧ ∃ r pre hook post c,
      triggerRecord .PushEvent "push" Sample.fullEvent = some r
      ∧ (AddPushEventHook (AddPushEventHook Sample.bot0 (Sample.ok "H1"))
          (Sample.failing "H2" "boom")).hooksOf .PushEvent = pre ++ hook :: post
      ∧ (hook () Sample.fullEvent (worldAfter () Sample.fullEvent pre
          (Sample.journal (.Println [.str r.String]) []))).2 = some c
      ∧ (handleWebHookEvent
          (AddPushEventHook (AddPushEventHook Sample.bot0 (Sample.ok "H1"))
            (Sample.failing "H2" "boom"))
          () "push" (Event.ofKind .PushEvent Sample.fullEvent) []).trace
          = .log (.Println [.str r.String]) :: (okCalls () Sample.fullEvent pre
            ++ [.invoke hook () Sample.fullEvent (some c),
              .log (.Printf "error on hook: %+v" [.err c])])
      ∧ GoError.Error (.wrapError "error on hook" (.errorString "boom") { line := 527 })
          = "error on hook: " ++ c.Error
      ∧ GoError.Unwrap (.wrapError "error on hook" (.errorString "boom") { line := 527 }) = some c :=
  ⟨rfl, hook_failure_wraps_first_cause _ () "push" .PushEvent Sample.fullEvent []
    (.wrapError "error on hook" (.errorString "boom") { line := 527 }) rfl⟩

/-- C6: registration appends.  For every kind k, bot and hook, the registration
method of k (a total function: it cannot fail) leaves the list of k equal to the
previous list followed by the hook: the length grows by one, the earlier entries
keep their positions, and registering the same hook again adds a second
occurrence. -/
theorem registration_appends (k : EventKind) (bot : Bot Ctx P W) (hook : Hook Ctx P W) :
    (bot.register k hook).hooksOf k = bot.hooksOf k ++ [hook]
    ∧ ((bot.register k hook).hooksOf k).length = (bot.hooksOf k).length + 1
    ∧ ((bot.register k hook).hooksOf k).take (bot.hooksOf k).length = bot.hooksOf k
    ∧ ((bot.register k hook).hooksOf k)[(bot.hooksOf k).length]? = some hook
    ∧ ((bot.register k hook).register k hook).hooksOf k = bot.hooksOf k ++ [hook, hook] := by
  refine ⟨Bot.hooksOf_register_self bot k hook, ?_, ?_, ?_, ?_⟩
  · rw [Bot.hooksOf_register_self, List.length_append]; rfl
  · rw [Bot.hooksOf_register_self, List.take_left]
  · rw [Bot.hooksOf_register_self, List.getElem?_append_right (le_refl _), Nat.sub_self]; rfl
  · rw [Bot.hooksOf_register_self, Bot.hooksOf_register_self, List.append_assoc]; rfl

/-- C7: registration for one kind is invisible to every other kind.  For distinct
kinds x and y, registering a hook for x leaves the hook list of y unchanged, and
the dispatch of every event of kind y has the same outcome (same hook calls in
the same order, same logger calls, same result, same world) before and after. -/
theorem registration_frames_other_kinds (x y : EventKind) (hxy : x ≠ y) (bot : Bot Ctx P W)
    (hook : Hook Ctx P W) :
    (bot.register x hook).hooksOf y = bot.hooksOf y
    ∧ ∀ (ctx : Ctx) (typ : String) (e : Ptr (GHEvent P)) (w : W),
        handleWebHookEvent (bot.register x hook) ctx typ (Event.ofKind y e) w
          = handleWebHookEvent bot ctx typ (Event.ofKind y e) w :=
  ⟨Bot.hooksOf_register_other bot x y hxy hook,
    fun ctx typ e w => handleWebHookEvent_register_other bot x y hxy hook ctx typ e w⟩

theorem registration_frames_other_kinds_witness :
    EventKind.IssueEvent ≠ EventKind.IssuesEvent
    ∧ ((AddIssuesEventHook Sample.bot0 (Sample.ok "H1")).register .IssueEvent
          (Sample.failing "H2" "boom")).hooksOf .IssuesEvent
        = (AddIssuesEventHook Sample.bot0 (Sample.ok "H1")).hooksOf .IssuesEvent
    ∧ ∀ (ctx : Unit) (typ : String) (e : Ptr (GHEvent Unit)) (w : List String),
        handleWebHookEvent ((AddIssuesEventHook Sample.bot0 (Sample.ok "H1")).register .IssueEvent
            (Sample.failing "H2" "boom")) ctx typ (Event.ofKind .IssuesEvent e) w
          = handleWebHookEvent (AddIssuesEventHook Sample.bot0 (Sample.ok "H1")) ctx typ
              (Event.ofKind .IssuesEvent e) w :=
  ⟨by decide,
    registration_frames_other_kinds .IssueEvent .IssuesEvent (by decide)
      (AddIssuesEventHook Sample.bot0 (Sample.ok "H1")) (Sample.failing "H2" "boom")⟩

/-- C8: every kind is wired to itself.  Evaluated with one hook registered by
AddMilestoneEventHook.  A milestone delivery with sender, organization and
repository names calls the hook; a label delivery, an event of another kind,
does not call it.  A milestone delivery for a repository owned by a user (no
organization) panics on the dereference in the trigger record: the hook
registered for the kind of the event is not called. -/
theorem milestone_hook_not_called_without_org :
    handleWebHookEvent (AddMilestoneEventHook Sample.bot0 (Sample.ok "H")) () "milestone"
        (.MilestoneEvent Sample.fullEvent) []
      = { world := ["log", "H"]
          trace := [.log (.Println [.str (eventTriggerLog.String
                { Typ := "milestone", Sender := "octocat", Org := "github",
                  Repo := "hello-world" })]),
            .invoke (Sample.ok "H") () Sample.fullEvent none]
          result := .returned none }
    ∧ handleWebHookEvent (AddMilestoneEventHook Sample.bot0 (Sample.ok "H")) () "label"
        (.LabelEvent Sample.fullEvent) []
      = { world := ["log"]
          trace := [.log (.Println [.str (eventTriggerLog.String
                { Typ := "label", Org := "github", Repo := "hello-world" })])]
          result := .returned none }
    ∧ handleWebHookEvent (AddMilestoneEventHook Sample.bot0 (Sample.ok "H")) () "milestone"
        (.MilestoneEvent Sample.userRepoEvent) []
      = { world := [], trace := [], result := .panicked } :=
  ⟨rfl, rfl, rfl⟩

/-- The wiring of the kinds.  For every kind k, bot and hook registered
through the registration method of k:
(1) the dispatch of an event of kind k runs the shared body on the hook list of
k, which now ends with the hook;
(2) the hook is called in that dispatch as soon as the trigger record can be
built and the hooks registered before it for k return nil;
(3) the dispatch of every value that is not an event of kind k (another kind, or
no supported kind) has the same outcome as without the registration;
(4) every hook called in the dispatch of an event of kind k is a member of the
hook list of k, called with the context and event of the dispatch. -/
theorem kinds_wired_to_themselves (k : EventKind) (bot : Bot Ctx P W) (hook : Hook Ctx P W)
    (ctx : Ctx) (typ : String) (w : W) :
    (∀ e, handleWebHookEvent (bot.register k hook) ctx typ (Event.ofKind k e) w
        = logAndRunHooks bot.logger k.errorfFrame ctx e (triggerRecord k typ e) (bot.hooksOf k ++ [hook]) w)
    ∧ (∀ e r, triggerRecord k typ e = some r →
        (∀ g ∈ bot.hooksOf k, ∀ w1, (g ctx e w1).2 = none) →
        ∃ ret, Action.invoke hook ctx e ret
          ∈ (handleWebHookEvent (bot.register k hook) ctx typ (Event.ofKind k e) w).trace)
    ∧ (∀ ev : Event P, ev.kind? ≠ some k →
        handleWebHookEvent (bot.register k hook) ctx typ ev w = handleWebHookEvent bot ctx typ ev w)
    ∧ (∀ e g ctx1 e1 ret,
        Action.invoke g ctx1 e1 ret ∈ (handleWebHookEvent bot ctx typ (Event.ofKind k e) w).trace →
        g ∈ bot.hooksOf k ∧ ctx1 = ctx ∧ e1 = e) := by
  have h1 : ∀ e, handleWebHookEvent (bot.register k hook) ctx typ (Event.ofKind k e) w
      = logAndRunHooks bot.logger k.errorfFrame ctx e (triggerRecord k typ e) (bot.hooksOf k ++ [hook]) w := by
    intro e
    rw [handleWebHookEvent_ofKind, Bot.hooksOf_register_self, Bot.logger_register]
  refine ⟨h1, ?_, ?_, ?_⟩
  · intro e r hr hok
    rw [h1, hr, logAndRunHooks_some, Outcome.after_trace,
      runHooks_append_ok bot.logger _ ctx e (bot.hooksOf k) [hook] _ hok]
    exact ⟨_, List.mem_cons_of_mem _ (List.mem_append_right _
      (runHooks_singleton_trace bot.logger _ ctx e hook _))⟩
  · intro ev hev
    cases hk : ev.kind? with
    | none =>
      cases ev <;> simp [Event.kind?] at hk
      exact handleWebHookEvent_register_unsupported bot k hook ctx typ _ w
    | some y =>
      obtain ⟨e, rfl⟩ := Event.eq_ofKind_of_kind? ev y hk
      refine handleWebHookEvent_register_other bot k y ?_ hook ctx typ e w
      intro hky
      exact hev (by rw [hk, hky])
  · intro e g ctx1 e1 ret hmem
    rw [handleWebHookEvent_ofKind] at hmem
    cases hr : triggerRecord k typ e with
    | none => rw [hr, logAndRunHooks_none] at hmem; simp at hmem
    | some r =>
      rw [hr, logAndRunHooks_some, Outcome.after_trace, List.mem_cons] at hmem
      rcases hmem with hmem | hmem
      · cases hmem
      · exact runHooks_trace_mem bot.logger _ ctx e _ _ g ctx1 e1 ret hmem

theorem kinds_wired_to_themselves_witness :
    (∃ ret, Action.invoke (Sample.ok "H") () Sample.fullEvent ret
      ∈ (handleWebHookEvent (Sample.bot0.register .IssuesEvent (Sample.ok "H")) () "issues"
          (Event.ofKind .IssuesEvent Sample.fullEvent) []).trace)
    ∧ handleWebHookEvent (Sample.bot0.register .IssuesEvent (Sample.ok "H")) () "issues"
        (.IssueEvent Sample.fullEvent) []
      = handleWebHookEvent Sample.bot0 () "issues" (.IssueEvent Sample.fullEvent) [] :=
  ⟨(kinds_wired_to_themselves .IssuesEvent Sample.bot0 (Sample.ok "H") () "issues" []).2.1
      Sample.fullEvent _ rfl (fun g hg => absurd hg (List.not_mem_nil g)),
    (kinds_wired_to_themselves .IssuesEvent Sample.bot0 (Sample.ok "H") () "issues" []).2.2.1
      (.IssueEvent Sample.fullEvent) (by decide)⟩

/-- C9: the trigger record is logged once, before the first hook call.  Evaluated
on a project_card delivery with one hook registered.  With sender, organization
and repository names present the trace is the Println of the record followed by
the hook call.  For a repository owned by a user (no organization) the call
panics on the dereference in the trigger record: the trace is empty, so the
record is logged zero times. -/
theorem projectCard_trigger_log_without_org :
    handleWebHookEvent (AddProjectCardEventHook Sample.bot0 (Sample.ok "H1"))
        () "project_card" (.ProjectCardEvent Sample.fullEvent) []
      = { world := ["log", "H1"]
          trace := [.log (.Println [.str (eventTriggerLog.String
                { Typ := "project_card", Sender := "octocat", Org := "github",
                  Repo := "hello-world" })]),
            .invoke (Sample.ok "H1") () Sample.fullEvent none]
          result := .returned none }
    ∧ handleWebHookEvent (AddProjectCardEventHook Sample.bot0 (Sample.ok "H1"))
        () "project_card" (.ProjectCardEvent Sample.userRepoEvent) []
      = { world := [], trace := [], result := .panicked }
    ∧ ((handleWebHookEvent (AddProjectCardEventHook Sample.bot0 (Sample.ok "H1"))
        () "project_card" (.ProjectCardEvent Sample.userRepoEvent) []).trace.filter
          Action.isLog).length = 0 :=
  ⟨rfl, rfl, rfl⟩

/-- C10: an absent sender, organization or repository.  For every kind k whose
branch puts a member in the trigger record and every event of kind k in which
that member (the object, or its login or name) is absent, the call panics on the
nil pointer dereference: it logs nothing, calls no hook and leaves the world as
it was. -/
theorem absent_member_panics (bot : Bot Ctx P W) (ctx : Ctx) (typ : String) (k : EventKind)
    (e : Ptr (GHEvent P)) (w : W)
    (h : (k.logsSender = true ∧ User.loadLogin (GHEvent.GetSender e) = none)
      ∨ (k.logsOrg = true ∧ Organization.loadName (GHEvent.GetOrg e) = none)
      ∨ (k.logsRepo = true ∧ Repository.loadName (GHEvent.GetRepo e) = none)) :
    handleWebHookEvent bot ctx typ (Event.ofKind k e) w
      = { world := w, trace := [], result := .panicked } := by
  rw [handleWebHookEvent_ofKind, triggerRecord_absent k typ e h, logAndRunHooks_none]

theorem absent_member_panics_witness :
    ((EventKind.CheckSuiteEvent.logsSender = true
          ∧ User.loadLogin (GHEvent.GetSender Sample.userRepoEvent) = none)
      ∨ (EventKind.CheckSuiteEvent.logsOrg = true
          ∧ Organization.loadName (GHEvent.GetOrg Sample.userRepoEvent) = none)
      ∨ (EventKind.CheckSuiteEvent.logsRepo = true
          ∧ Repository.loadName (GHEvent.GetRepo Sample.userRepoEvent) = none))
    ∧ handleWebHookEvent (AddCheckSuiteEventHook Sample.bot0 (Sample.ok "H1")) () "check_suite"
        (Event.ofKind .CheckSuiteEvent Sample.userRepoEvent) []
      = { world := [], trace := [], result := .panicked } :=
  ⟨Or.inr (Or.inl ⟨rfl, rfl⟩),
    absent_member_panics (AddCheckSuiteEventHook Sample.bot0 (Sample.ok "H1")) () "check_suite"
      .CheckSuiteEvent Sample.userRepoEvent [] (Or.inr (Or.inl ⟨rfl, rfl⟩))⟩

/-! ## The HTTP handler -/

/-- The handler, path by path, in source order: the method test, the signature
check, the decoder, and the three ways the dispatch can end. -/
theorem githubWebHookHandler_paths {R L : Type} (gh : GoGitHub Ctx R L P) (bot : Bot Ctx P W)
    (r : Request Ctx R) (w : W) :
    (r.Method ≠ http.MethodPost →
        githubWebHookHandler gh bot r w
          = { world := w, trace := [], written := [http.StatusMethodNotAllowed],
              panicked := false })
    ∧ (r.Method = http.MethodPost → ∀ err, gh.ValidatePayload r bot.webhookSecret = .error err →
        githubWebHookHandler gh bot r w
          = { world := w, trace := [], written := [http.StatusBadRequest], panicked := false })
    ∧ (r.Method = http.MethodPost → ∀ payload err,
        gh.ValidatePayload r bot.webhookSecret = .ok payload →
        gh.ParseWebHook (gh.WebHookType r) payload = .error err →
        githubWebHookHandler gh bot r w
          = { world := w, trace := [], written := [http.StatusBadRequest], panicked := false })
    ∧ (r.Method = http.MethodPost → ∀ payload event,
        gh.ValidatePayload r bot.webhookSecret = .ok payload →
        gh.ParseWebHook (gh.WebHookType r) payload = .ok event →
        githubWebHookHandler gh bot r w
          = { world := (handleWebHookEvent bot r.Context (gh.WebHookType r) event w).world
              trace := (handleWebHookEvent bot r.Context (gh.WebHookType r) event w).trace
              written :=
                match (handleWebHookEvent bot r.Context (gh.WebHookType r) event w).result with
                | .panicked => []
                | .returned (some _) => [http.StatusInternalServerError]
                | .returned none => [http.StatusOK]
              panicked :=
                match (handleWebHookEvent bot r.Context (gh.WebHookType r) event w).result with
                | .panicked => true
                | .returned _ => false }) := by
  refine ⟨?_, ?_, ?_, ?_⟩
  · intro h
    simp [githubWebHookHandler, h]
  · intro h err hv
    simp [githubWebHookHandler, h, hv]
  · intro h payload err hv hp
    simp [githubWebHookHandler, h, hv, hp]
  · intro h payload event hv hp
    simp only [githubWebHookHandler, h, hv, hp, ne_eq, not_true_eq_false, if_false]
    rcases handleWebHookEvent bot r.Context (gh.WebHookType r) event w with ⟨w1, tr, res⟩
    rcases res with (_ | _) | _ <;> rfl

/-- C11: one status per request, in the order method, signature, decoder,
dispatch.  Evaluated on sample requests: GET gives 405; an unsigned POST gives
400; a signed POST whose body does not decode gives 400; a signed star delivery
whose hook returns an error gives 500; a signed delivery that decodes to no
supported event gives 500; a signed star delivery gives 200.  A signed check_run
delivery for a repository owned by a user (no organization) panics in the
dispatch, on the dereference in the trigger record: the handler passes no status
to WriteHeader and does not return. -/
theorem handler_status_checkRun_without_org :
    (githubWebHookHandler Sample.gh Sample.bot0
        { Method := "GET", Context := (),
          raw := { signed := true, eventType := "star", body := some (.StarEvent Sample.fullEvent) } }
        []).written = [405]
    ∧ (githubWebHookHandler Sample.gh Sample.bot0
        { Method := "POST", Context := (),
          raw := { signed := false, eventType := "star", body := some (.StarEvent Sample.fullEvent) } }
        []).written = [400]
    ∧ (githubWebHookHandler Sample.gh Sample.bot0
        { Method := "POST", Context := (),
          raw := { signed := true, eventType := "star", body := none } }
        []).written = [400]
    ∧ (githubWebHookHandler Sample.gh (AddStarEventHook Sample.bot0 (Sample.failing "H1" "boom"))
        (Sample.post "star" (.StarEvent Sample.fullEvent)) []).written = [500]
    ∧ (githubWebHookHandler Sample.gh Sample.bot0
        (Sample.post "not_a_real_kind" (.other ())) []).written = [500]
    ∧ (githubWebHookHandler Sample.gh (AddStarEventHook Sample.bot0 (Sample.ok "H1"))
        (Sample.post "star" (.StarEvent Sample.fullEvent)) []).written = [200]
    ∧ githubWebHookHandler Sample.gh (AddCheckRunEventHook Sample.bot0 (Sample.ok "H1"))
        (Sample.post "check_run" (.CheckRunEvent Sample.userRepoEvent)) []
      = { world := [], trace := [], written := [], panicked := true } :=
  ⟨rfl, rfl, rfl, rfl, rfl, rfl, rfl⟩

/-- C12: a request that is not a POST, or whose signature is rejected, or whose
payload does not decode, never reaches the dispatch: the handler calls no hook
and no logger method (empty trace, world unchanged), and answers 405 or 400. -/
theorem rejected_request_not_dispatched {R L : Type} (gh : GoGitHub Ctx R L P)
    (bot : Bot Ctx P W) (r : Request Ctx R) (w : W)
    (h : r.Method ≠ http.MethodPost
      ∨ (∃ err, gh.ValidatePayload r bot.webhookSecret = .error err)
      ∨ (∃ payload err, gh.ValidatePayload r bot.webhookSecret = .ok payload
          ∧ gh.ParseWebHook (gh.WebHookType r) payload = .error err)) :
    (githubWebHookHandler gh bot r w).trace = []
    ∧ (githubWebHookHandler gh bot r w).world = w
    ∧ (githubWebHookHandler gh bot r w).panicked = false
    ∧ ((githubWebHookHandler gh bot r w).written = [http.StatusMethodNotAllowed]
      ∨ (githubWebHookHandler gh bot r w).written = [http.StatusBadRequest]) := by
  obtain ⟨h1, h2, h3, _⟩ := githubWebHookHandler_paths gh bot r w
  by_cases hm : r.Method = http.MethodPost
  · rcases h with h | ⟨err, hv⟩ | ⟨payload, err, hv, hp⟩
    · exact absurd hm h
    · rw [h2 hm err hv]; exact ⟨rfl, rfl, rfl, Or.inr rfl⟩
    · rw [h3 hm payload err hv hp]; exact ⟨rfl, rfl, rfl, Or.inr rfl⟩
  · rw [h1 hm]; exact ⟨rfl, rfl, rfl, Or.inl rfl⟩

theorem rejected_request_not_dispatched_witness :
    (("POST" ≠ http.MethodPost)
      ∨ (∃ err, Sample.gh.ValidatePayload
          { Method := "POST", Context := (),
            raw := { signed := false, eventType := "push", body := some (.PushEvent Sample.fullEvent) } }
          (AddPushEventHook Sample.bot0 (Sample.ok "H1")).webhookSecret = .error err)
      ∨ (∃ payload err, Sample.gh.ValidatePayload
          { Method := "POST", Context := (),
            raw := { signed := false, eventType := "push", body := some (.PushEvent Sample.fullEvent) } }
          (AddPushEventHook Sample.bot0 (Sample.ok "H1")).webhookSecret = .ok payload
          ∧ Sample.gh.ParseWebHook "push" payload = .error err))
    ∧ (githubWebHookHandler Sample.gh (AddPushEventHook Sample.bot0 (Sample.ok "H1"))
        { Method := "POST", Context := (),
          raw := { signed := false, eventType := "push", body := some (.PushEvent Sample.fullEvent) } }
        []).trace = []
    ∧ (githubWebHookHandler Sample.gh (AddPushEventHook Sample.bot0 (Sample.ok "H1"))
        { Method := "POST", Context := (),
          raw := { signed := false, eventType := "push", body := some (.PushEvent Sample.fullEvent) } }
        []).world = [] :=
  ⟨Or.inr (Or.inl ⟨_, rfl⟩),
    (rejected_request_not_dispatched Sample.gh (AddPushEventHook Sample.bot0 (Sample.ok "H1"))
      { Method := "POST", Context := (),
        raw := { signed := false, eventType := "push", body := some (.PushEvent Sample.fullEvent) } }
      [] (Or.inr (Or.inl ⟨_, rfl⟩))).1,
    (rejected_request_not_dispatched Sample.gh (AddPushEventHook Sample.bot0 (Sample.ok "H1"))
      { Method := "POST", Context := (),
        raw := { signed := false, eventType := "push", body := some (.PushEvent Sample.fullEvent) } }
      [] (Or.inr (Or.inl ⟨_, rfl⟩))).2.1⟩

/-! ## Sequences of calls -/

theorem run_append (ops1 ops2 : List (Op Ctx P W)) (s : State Ctx P W) :
    run (ops1 ++ ops2) s = run ops2 (run ops1 s) := by
  induction ops1 generalizing s with
  | nil => rfl
  | cons op ops ih => exact ih (op.apply s)

/-- No call changes the secret. -/
theorem Op.apply_webhookSecret (op : Op Ctx P W) (s : State Ctx P W) :
    (op.apply s).bot.webhookSecret = s.bot.webhookSecret := by
  cases op with
  | AddHook k hook => exact Bot.webhookSecret_register s.bot k hook
  | SetLogger logger => rfl
  | dispatch ctx typ event => rfl

theorem run_webhookSecret (ops : List (Op Ctx P W)) (s : State Ctx P W) :
    (run ops s).bot.webhookSecret = s.bot.webhookSecret := by
  induction ops generalizing s with
  | nil => rfl
  | cons op ops ih => exact (ih (op.apply s)).trans (Op.apply_webhookSecret op s)

/-- After a sequence of calls the list of kind k is the list before it followed by
the hooks registered for k, in call order. -/
theorem run_hooksOf (ops : List (Op Ctx P W)) (s : State Ctx P W) (k : EventKind) :
    (run ops s).bot.hooksOf k = s.bot.hooksOf k ++ registered k ops := by
  induction ops generalizing s with
  | nil => simp [run, registered]
  | cons op ops ih =>
    cases op with
    | AddHook k1 hook =>
      by_cases hk : k1 = k
      · subst hk
        rw [run, ih, Op.apply, Bot.hooksOf_register_self, registered, if_pos rfl,
          List.append_assoc]
        rfl
      · rw [run, ih, Op.apply, Bot.hooksOf_register_other s.bot k1 k hk, registered, if_neg hk]
    | SetLogger logger => rw [run, ih]; rfl
    | dispatch ctx typ event => rw [run, ih]; rfl

/-- Hooks whose result does not depend on the world are called the same way, with
the same results, from any two worlds. -/
theorem runHooks_state_independent (logger : Logger W) (fr : Frame) (ctx : Ctx) (e : Ptr (GHEvent P))
    (hooks : List (Hook Ctx P W))
    (hind : ∀ g ∈ hooks, ∀ w1 w2, (g ctx e w1).2 = (g ctx e w2).2) (w w0 : W) :
    (runHooks logger fr ctx e hooks w).trace = (runHooks logger fr ctx e hooks w0).trace
    ∧ (runHooks logger fr ctx e hooks w).result = (runHooks logger fr ctx e hooks w0).result := by
  induction hooks generalizing w w0 with
  | nil => exact ⟨rfl, rfl⟩
  | cons g rest ih =>
    have hg := hind g (List.mem_cons_self _ _) w w0
    cases hr : (g ctx e w).2 with
    | none =>
      rw [runHooks_cons_ok logger _ ctx e g rest w hr,
        runHooks_cons_ok logger _ ctx e g rest w0 (hg ▸ hr)]
      obtain ⟨h1, h2⟩ := ih (fun g1 h1 => hind g1 (List.mem_cons_of_mem _ h1))
        (g ctx e w).1 (g ctx e w0).1
      simp [h1, h2]
    | some c =>
      rw [runHooks_cons_err logger _ ctx e g rest w c hr,
        runHooks_cons_err logger _ ctx e g rest w0 c (hg ▸ hr)]
      exact ⟨rfl, rfl⟩

theorem handleWebHookEvent_state_independent (bot : Bot Ctx P W) (ctx : Ctx) (typ : String)
    (event : Event P)
    (hind : ∀ k, ∀ g ∈ bot.hooksOf k, ∀ c e w1 w2, (g c e w1).2 = (g c e w2).2) (w w0 : W) :
    (handleWebHookEvent bot ctx typ event w).trace = (handleWebHookEvent bot ctx typ event w0).trace
    ∧ (handleWebHookEvent bot ctx typ event w).result
        = (handleWebHookEvent bot ctx typ event w0).result := by
  cases hk : event.kind? with
  | none =>
    cases event <;> simp [Event.kind?] at hk
    exact ⟨rfl, rfl⟩
  | some k =>
    obtain ⟨e, rfl⟩ := Event.eq_ofKind_of_kind? event k hk
    rw [handleWebHookEvent_ofKind, handleWebHookEvent_ofKind]
    cases triggerRecord k typ e with
    | none => exact ⟨rfl, rfl⟩
    | some r =>
      rw [logAndRunHooks_some, logAndRunHooks_some]
      obtain ⟨h1, h2⟩ := runHooks_state_independent bot.logger k.errorfFrame ctx e
        (bot.hooksOf k) (fun g hg => hind k g hg ctx e)
        (bot.logger (.Println [.str r.String]) w)
        (bot.logger (.Println [.str r.String]) w0)
      simp [h1, h2]

/-- C13: the dispatcher keeps no state.  A call of handleWebHookEvent, whatever
the bot, the discriminator, the event and the way the call ends, leaves the bot
as it was: the hook list of every kind, the logger and the secret.  Hence, for
hooks whose result does not depend on the world, dispatching the same event a
second time right after the first calls the same hooks with the same results,
makes the same logger calls and ends the same way. -/
theorem dispatch_is_stateless (bot : Bot Ctx P W) (ctx : Ctx) (typ : String) (event : Event P)
    (w : W) :
    ((Op.dispatch ctx typ event).apply { bot := bot, world := w }).bot = bot
    ∧ (∀ k, ((Op.dispatch ctx typ event).apply { bot := bot, world := w }).bot.hooksOf k
        = bot.hooksOf k)
    ∧ ((Op.dispatch ctx typ event).apply { bot := bot, world := w }).bot.logger = bot.logger
    ∧ ((Op.dispatch ctx typ event).apply { bot := bot, world := w }).bot.webhookSecret
        = bot.webhookSecret
    ∧ ((∀ k, ∀ g ∈ bot.hooksOf k, ∀ c e w1 w2, (g c e w1).2 = (g c e w2).2) →
        (handleWebHookEvent ((Op.dispatch ctx typ event).apply { bot := bot, world := w }).bot
            ctx typ event
            ((Op.dispatch ctx typ event).apply { bot := bot, world := w }).world).trace
          = (handleWebHookEvent bot ctx typ event w).trace
        ∧ (handleWebHookEvent ((Op.dispatch ctx typ event).apply { bot := bot, world := w }).bot
            ctx typ event
            ((Op.dispatch ctx typ event).apply { bot := bot, world := w }).world).result
          = (handleWebHookEvent bot ctx typ event w).result) :=
  ⟨rfl, fun _ => rfl, rfl, rfl,
    fun hind => handleWebHookEvent_state_independent bot ctx typ event hind _ _⟩

theorem dispatch_is_stateless_witness :
    (handleWebHookEvent
        (AddPushEventHook (AddPushEventHook Sample.bot0 (Sample.ok "H1")) (Sample.failing "H2" "boom"))
        () "push" (.PushEvent Sample.fullEvent) ["log", "H1", "H2", "log"]).trace
      = (handleWebHookEvent
        (AddPushEventHook (AddPushEventHook Sample.bot0 (Sample.ok "H1")) (Sample.failing "H2" "boom"))
        () "push" (.PushEvent Sample.fullEvent) []).trace
    ∧ (handleWebHookEvent
        (AddPushEventHook (AddPushEventHook Sample.bot0 (Sample.ok "H1")) (Sample.failing "H2" "boom"))
        () "push" (.PushEvent Sample.fullEvent) ["log", "H1", "H2", "log"]).result
      = (handleWebHookEvent
        (AddPushEventHook (AddPushEventHook Sample.bot0 (Sample.ok "H1")) (Sample.failing "H2" "boom"))
        () "push" (.PushEvent Sample.fullEvent) []).result :=
  (dispatch_is_stateless
    (AddPushEventHook (AddPushEventHook Sample.bot0 (Sample.ok "H1")) (Sample.failing "H2" "boom"))
    () "push" (.PushEvent Sample.fullEvent) []).2.2.2.2
    (by
      intro k g hg c e w1 w2
      cases k <;> first
        | exact absurd hg (List.not_mem_nil g)
        | (simp [Bot.hooksOf, AddPushEventHook, Sample.bot0, SetLogger, New] at hg
           rcases hg with rfl | rfl <;> rfl))

/-- Two bots with the same secret, the same logger and the same hook list for
every kind are the same bot. -/
theorem Bot.eq_of_members (b1 b2 : Bot Ctx P W) (hs : b1.webhookSecret = b2.webhookSecret)
    (hl : b1.logger = b2.logger) (hh : ∀ k, b1.hooksOf k = b2.hooksOf k) : b1 = b2 := by
  cases b1
  cases b2
  rw [Bot.mk.injEq]
  exact ⟨hs, hl, hh .CheckRunEvent, hh .CheckSuiteEvent, hh .CommitCommentEvent, hh .CreateEvent, hh
      .DeleteEvent, hh .DeployKeyEvent, hh .DeploymentEvent, hh .DeploymentStatusEvent, hh
      .ForkEvent, hh .GitHubAppAuthorizationEvent, hh .GollumEvent, hh .InstallationEvent, hh
      .InstallationRepositoriesEvent, hh .IssueCommentEvent, hh .IssueEvent, hh .IssuesEvent,
      hh .LabelEvent, hh .MarketplacePurchaseEvent, hh .MemberEvent, hh .MembershipEvent, hh
      .MetaEvent, hh .MilestoneEvent, hh .OrgBlockEvent, hh .OrganizationEvent, hh
      .PageBuildEvent, hh .PingEvent, hh .ProjectCardEvent, hh .ProjectColumnEvent, hh
      .ProjectEvent, hh .PublicEvent, hh .PullRequestEvent, hh .PullRequestReviewCommentEvent,
      hh .PullRequestReviewEvent, hh .PushEvent, hh .ReleaseEvent, hh .RepositoryEvent, hh
      .RepositoryVulnerabilityAlertEvent, hh .StarEvent, hh .StatusEvent, hh .TeamAddEvent, hh
      .TeamEvent, hh .WatchEvent⟩

/-- C14: registrations for different kinds commute.  For distinct kinds x and y,
registering hx for x and then hy for y gives the same bot (the hook list of
every kind, the logger, the secret) as registering hy for y and then hx for x. -/
theorem registrations_commute (x y : EventKind) (hxy : x ≠ y) (bot : Bot Ctx P W)
    (hx hy : Hook Ctx P W) :
    (bot.register x hx).register y hy = (bot.register y hy).register x hx := by
  apply Bot.eq_of_members
  · simp only [Bot.webhookSecret_register]
  · simp only [Bot.logger_register]
  · intro k
    by_cases hkx : x = k
    · subst hkx
      rw [Bot.hooksOf_register_other _ y x (Ne.symm hxy), Bot.hooksOf_register_self,
        Bot.hooksOf_register_self, Bot.hooksOf_register_other _ y x (Ne.symm hxy)]
    · by_cases hky : y = k
      · subst hky
        rw [Bot.hooksOf_register_self, Bot.hooksOf_register_other _ x y hkx,
          Bot.hooksOf_register_other _ x y hkx, Bot.hooksOf_register_self]
      · rw [Bot.hooksOf_register_other _ y k hky, Bot.hooksOf_register_other _ x k hkx,
          Bot.hooksOf_register_other _ x k hkx, Bot.hooksOf_register_other _ y k hky]

theorem registrations_commute_witness :
    EventKind.TeamEvent ≠ EventKind.TeamAddEvent
    ∧ (Sample.bot0.register .TeamEvent (Sample.ok "X")).register .TeamAddEvent (Sample.ok "Y")
      = (Sample.bot0.register .TeamAddEvent (Sample.ok "Y")).register .TeamEvent (Sample.ok "X") :=
  ⟨by decide, registrations_commute .TeamEvent .TeamAddEvent (by decide) Sample.bot0
    (Sample.ok "X") (Sample.ok "Y")⟩

/-- C17: the configuration state.  New(cfg) gives a bot whose secret is the bytes
of cfg.WebHookSecret, whose logger is the no-op logger (every call leaves the
world as it was) and whose hook list is empty for every kind.  SetLogger puts the
given logger in place and changes neither the secret nor any hook list.  No call
(a registration, SetLogger, handleWebHookEvent) changes the secret, so after any
sequence of calls on a bot made by New the secret is still the bytes of
cfg.WebHookSecret. -/
theorem configuration_is_framed (cfg : Config) :
    (New cfg : Bot Ctx P W).webhookSecret = cfg.WebHookSecret.toUTF8
    ∧ (New cfg : Bot Ctx P W).logger = nopLogger
    ∧ (∀ (call : LogCall) (w : W), nopLogger call w = w)
    ∧ (∀ k, (New cfg : Bot Ctx P W).hooksOf k = [])
    ∧ (∀ (bot : Bot Ctx P W) (logger : Logger W),
        (SetLogger bot logger).logger = logger
        ∧ (SetLogger bot logger).webhookSecret = bot.webhookSecret
        ∧ ∀ k, (SetLogger bot logger).hooksOf k = bot.hooksOf k)
    ∧ (∀ (op : Op Ctx P W) (s : State Ctx P W),
        (op.apply s).bot.webhookSecret = s.bot.webhookSecret)
    ∧ (∀ (ops : List (Op Ctx P W)) (w : W),
        (run ops { bot := New cfg, world := w }).bot.webhookSecret = cfg.WebHookSecret.toUTF8) := by
  refine ⟨rfl, rfl, fun _ _ => rfl, ?_, ?_, Op.apply_webhookSecret, ?_⟩
  · intro k
    cases k <;> rfl
  · intro bot logger
    refine ⟨rfl, rfl, ?_⟩
    intro k
    cases k <;> rfl
  · intro ops w
    exact run_webhookSecret ops _

/-- C19: the registry only grows by appending.  For every sequence of calls
(registrations, SetLogger, handleWebHookEvent) on a bot made by New and every
kind k: the list of k after the whole sequence is the list of k at any earlier
point followed by the hooks registered for k since then, and the list at any
point is exactly the hooks passed to the registration method of k so far, in
call order. -/
theorem registry_grows_by_appending (cfg : Config) (w : W) (k : EventKind)
    (ops1 ops2 : List (Op Ctx P W)) :
    (run (ops1 ++ ops2) { bot := New cfg, world := w }).bot.hooksOf k
        = (run ops1 { bot := New cfg, world := w }).bot.hooksOf k ++ registered k ops2
    ∧ (run ops1 { bot := New cfg, world := w }).bot.hooksOf k = registered k ops1
    ∧ (run (ops1 ++ ops2) { bot := New cfg, world := w }).bot.hooksOf k
        = registered k (ops1 ++ ops2) := by
  have hnew : (New cfg : Bot Ctx P W).hooksOf k = [] := by cases k <;> rfl
  refine ⟨?_, ?_, ?_⟩
  · rw [run_append, run_hooksOf]
  · rw [run_hooksOf, hnew, List.nil_append]
  · rw [run_hooksOf, hnew, List.nil_append]

/-! ## The two dispatch errors -/

/-- The message of the error for an unsupported value differs from the message of
the error for a failed hook, whatever the discriminator and the cause. -/
theorem dispatch_error_messages_ne (typ : String) (c : GoError) (fr1 fr2 : Frame) :
    (xerrors.ErrorfS "unsupported event type: " typ fr1).Error
      ≠ (xerrors.ErrorfW "error on hook" c fr2).Error := by
  intro h
  have h2 := congrArg (fun s => s.data.head?) h
  simp only [xerrors.ErrorfS, xerrors.ErrorfW, GoError.Error, String.data_append] at h2
  revert h2
  simp [String.data]

/-- When the loop returns nil, every hook of the list was called and returned nil. -/
theorem runHooks_ok_inv (logger : Logger W) (fr : Frame) (ctx : Ctx) (e : Ptr (GHEvent P))
    (hooks : List (Hook Ctx P W)) (w : W)
    (h : (runHooks logger fr ctx e hooks w).result = .returned none) :
    (runHooks logger fr ctx e hooks w).trace = okCalls ctx e hooks := by
  induction hooks generalizing w with
  | nil => rfl
  | cons g rest ih =>
    cases hr : (g ctx e w).2 with
    | none =>
      rw [runHooks_cons_ok logger _ ctx e g rest w hr] at h ⊢
      rw [Outcome.after_trace, ih _ h]
      rfl
    | some c =>
      rw [runHooks_cons_err logger _ ctx e g rest w c hr] at h
      simp at h

theorem okCalls_filter_isLog (ctx : Ctx) (e : Ptr (GHEvent P)) (hooks : List (Hook Ctx P W)) :
    (okCalls ctx e hooks).filter Action.isLog = [] := by
  induction hooks with
  | nil => rfl
  | cons g rest ih =>
    rw [okCalls, List.map_cons, List.filter_cons_of_neg (by simp [Action.isLog])]
    exact ih

/-- The call site of Errorf tells the kinds apart: no two branches call it on the
same line. -/
theorem EventKind.errorfFrame_injective (k1 k2 : EventKind)
    (h : k1.errorfFrame = k2.errorfFrame) : k1 = k2 := by
  have hl := congrArg Frame.line h
  cases k1 <;> cases k2 <;> first | rfl | exact absurd hl (by decide)

/-- C16 as stated fails: the error of a failed dispatch does not tell the position
of the hook that failed.  A push dispatch whose first hook returns boom and a
push dispatch whose third hook returns boom return the same error: the same
message, the same cause and the same call site. -/
theorem hook_failure_error_omits_position :
    (handleWebHookEvent (AddPushEventHook Sample.bot0 (Sample.failing "H1" "boom"))
        () "push" (.PushEvent Sample.fullEvent) []).result
      = .returned (some (.wrapError "error on hook" (.errorString "boom") { line := 527 }))
    ∧ (handleWebHookEvent
        (AddPushEventHook (AddPushEventHook (AddPushEventHook Sample.bot0 (Sample.ok "A"))
          (Sample.ok "B")) (Sample.failing "H3" "boom"))
        () "push" (.PushEvent Sample.fullEvent) []).result
      = .returned (some (.wrapError "error on hook" (.errorString "boom") { line := 527 })) :=
  ⟨rfl, rfl⟩

/-- C16, amended: the returned error tells the two failure classes apart and
carries the cause and the call site, not the position.  For every dispatch of an
unsupported value that returns err1 and every dispatch of an event of a
supported kind k that returns an error err2: err1 and err2 differ and so do
their messages; err1 has the message "unsupported event type: " followed by the
discriminator, no cause, and the call site of the default branch; err2 is the
cause c returned by the hook that failed, wrapped under the fixed message
"error on hook" with the call site of the branch of k, so that its message is
"error on hook: " followed by the message of c, unwrapping it gives c, and its
call site is that of no other kind.  Nothing in err2 depends on the position of
the hook in the list. -/
theorem dispatch_errors_tell_classes_apart (bot : Bot Ctx P W) (ctx : Ctx) (typ : String)
    (event : Event P) (w : W) (bot1 : Bot Ctx P W) (ctx1 : Ctx) (typ1 : String) (k : EventKind)
    (e : Ptr (GHEvent P)) (w1 : W) (err1 err2 : GoError)
    (hk : event.kind? = none)
    (h1 : (handleWebHookEvent bot ctx typ event w).result = .returned (some err1))
    (h2 : (handleWebHookEvent bot1 ctx1 typ1 (Event.ofKind k e) w1).result
      = .returned (some err2)) :
    err1 ≠ err2
    ∧ err1.Error ≠ err2.Error
    ∧ err1 = .noWrapError ("unsupported event type: " ++ typ) { line := 627 }
    ∧ err1.Error = "unsupported event type: " ++ typ
    ∧ err1.Unwrap = none
    ∧ (∃ hook c, Action.invoke hook ctx1 e (some c)
          ∈ (handleWebHookEvent bot1 ctx1 typ1 (Event.ofKind k e) w1).trace
        ∧ err2 = .wrapError "error on hook" c k.errorfFrame
        ∧ err2.Error = "error on hook: " ++ c.Error
        ∧ err2.Unwrap = some c)
    ∧ (∀ k2 : EventKind, k2.errorfFrame = k.errorfFrame → k2 = k) := by
  have he1 : err1 = xerrors.ErrorfS "unsupported event type: " typ { line := 627 } := by
    cases event <;> simp [Event.kind?] at hk
    simp [handleWebHookEvent] at h1
    exact h1.symm
  rw [handleWebHookEvent_ofKind] at h2 ⊢
  cases hr : triggerRecord k typ1 e with
  | none => rw [hr, logAndRunHooks_none] at h2; simp at h2
  | some r =>
    rw [hr, logAndRunHooks_some, Outcome.after_result] at h2
    obtain ⟨pre, hook, post, c, _, _, he2, ht⟩ :=
      runHooks_error_inv bot1.logger k.errorfFrame ctx1 e _ _ err2 h2
    have hne := dispatch_error_messages_ne typ c { line := 627 } k.errorfFrame
    rw [← he1, ← he2] at hne
    refine ⟨fun h => hne (congrArg GoError.Error h), hne, he1, by rw [he1]; rfl,
      by rw [he1]; rfl, ⟨hook, c, ?_, he2, by rw [he2]; rfl, by rw [he2]; rfl⟩,
      fun k2 h => EventKind.errorfFrame_injective k2 k h⟩
    rw [logAndRunHooks_some, Outcome.after_trace, ht]
    simp

theorem dispatch_errors_tell_classes_apart_witness :
    (Event.other () : Event Unit).kind? = none
    ∧ (handleWebHookEvent Sample.bot0 () "not_a_real_kind" (.other ()) []).result
      = .returned (some (.noWrapError "unsupported event type: not_a_real_kind" { line := 627 }))
    ∧ (handleWebHookEvent (AddPushEventHook Sample.bot0 (Sample.failing "H1" "boom"))
        () "push" (Event.ofKind .PushEvent Sample.fullEvent) []).result
      = .returned (some (.wrapError "error on hook" (.errorString "boom") { line := 527 }))
    ∧ GoError.noWrapError "unsupported event type: not_a_real_kind" { line := 627 }
      ≠ .wrapError "error on hook" (.errorString "boom") { line := 527 }
    ∧ GoError.Error (.noWrapError "unsupported event type: not_a_real_kind" { line := 627 })
      ≠ GoError.Error (.wrapError "error on hook" (.errorString "boom") { line := 527 })
    ∧ (handleWebHookEvent (AddIssuesEventHook Sample.bot0 (Sample.failing "H1" "boom"))
        () "issues" (Event.ofKind .IssuesEvent Sample.fullEvent) []).result
      = .returned (some (.wrapError "error on hook" (.errorString "boom") { line := 314 })) :=
  ⟨rfl, rfl, rfl,
    (dispatch_errors_tell_classes_apart Sample.bot0 () "not_a_real_kind" (.other ()) []
      (AddPushEventHook Sample.bot0 (Sample.failing "H1" "boom")) () "push" .PushEvent
      Sample.fullEvent [] _ _ rfl rfl rfl).1,
    (dispatch_errors_tell_classes_apart Sample.bot0 () "not_a_real_kind" (.other ()) []
      (AddPushEventHook Sample.bot0 (Sample.failing "H1" "boom")) () "push" .PushEvent
      Sample.fullEvent [] _ _ rfl rfl rfl).2.1,
    rfl⟩

/-- C20: a hook failure is logged.  Evaluated on project deliveries with two
hooks registered.  With sender, organization and repository names present: when
the second hook returns the error boom the logger calls are Println with the
trigger record and then Printf with the error, and when both hooks return nil
the only logger call is the Println.  For a repository owned by a user (no
organization) and both hooks returning nil the call panics on the dereference in
the trigger record: the logger is called zero times. -/
theorem project_log_count_without_org :
    (handleWebHookEvent
        (AddProjectEventHook (AddProjectEventHook Sample.bot0 (Sample.ok "A"))
          (Sample.failing "B" "boom"))
        () "project" (.ProjectEvent Sample.fullEvent) []).trace.filter Action.isLog
      = [.log (.Println [.str (eventTriggerLog.String
            { Typ := "project", Sender := "octocat", Org := "github", Repo := "hello-world" })]),
          .log (.Printf "error on hook: %+v" [.err (.errorString "boom")])]
    ∧ (handleWebHookEvent
        (AddProjectEventHook (AddProjectEventHook Sample.bot0 (Sample.ok "A")) (Sample.ok "B"))
        () "project" (.ProjectEvent Sample.fullEvent) []).trace.filter Action.isLog
      = [.log (.Println [.str (eventTriggerLog.String
            { Typ := "project", Sender := "octocat", Org := "github", Repo := "hello-world" })])]
    ∧ handleWebHookEvent
        (AddProjectEventHook (AddProjectEventHook Sample.bot0 (Sample.ok "A")) (Sample.ok "B"))
        () "project" (.ProjectEvent Sample.userRepoEvent) []
      = { world := [], trace := [], result := .panicked }
    ∧ (handleWebHookEvent
        (AddProjectEventHook (AddProjectEventHook Sample.bot0 (Sample.ok "A")) (Sample.ok "B"))
        () "project" (.ProjectEvent Sample.userRepoEvent) []).trace.filter Action.isLog = [] :=
  ⟨rfl, rfl, rfl, rfl⟩

/-- The logger calls of a dispatch that does not panic.  For every dispatch of an
event of a supported kind:
(1) when the call returns an error, the logger was called exactly twice: first
Println with the trigger record, before any hook call, then, after the hooks
before the failing one returned nil and the failing hook returned the error c,
Printf with the format "error on hook: %+v" and the argument c; nothing follows;
(2) when the call returns nil, every hook was called and returned nil and the
logger was called exactly once, Println with the trigger record;
(3) the same holds when the trigger record can be built and every registered hook
returns nil in every world. -/
theorem hook_failure_is_logged (bot : Bot Ctx P W) (ctx : Ctx) (typ : String) (k : EventKind)
    (e : Ptr (GHEvent P)) (w : W) :
    (∀ err, (handleWebHookEvent bot ctx typ (Event.ofKind k e) w).result = .returned (some err) →
      ∃ r pre hook post c,
        triggerRecord k typ e = some r
        ∧ bot.hooksOf k = pre ++ hook :: post
        ∧ (handleWebHookEvent bot ctx typ (Event.ofKind k e) w).trace
            = .log (.Println [.str r.String]) :: (okCalls ctx e pre
              ++ [.invoke hook ctx e (some c), .log (.Printf "error on hook: %+v" [.err c])])
        ∧ (handleWebHookEvent bot ctx typ (Event.ofKind k e) w).trace.filter Action.isLog
            = [.log (.Println [.str r.String]), .log (.Printf "error on hook: %+v" [.err c])]
        ∧ err = .wrapError "error on hook" c k.errorfFrame)
    ∧ ((handleWebHookEvent bot ctx typ (Event.ofKind k e) w).result = .returned none →
      ∃ r, triggerRecord k typ e = some r
        ∧ (handleWebHookEvent bot ctx typ (Event.ofKind k e) w).trace
            = .log (.Println [.str r.String]) :: okCalls ctx e (bot.hooksOf k)
        ∧ (handleWebHookEvent bot ctx typ (Event.ofKind k e) w).trace.filter Action.isLog
            = [.log (.Println [.str r.String])])
    ∧ (∀ r, triggerRecord k typ e = some r →
      (∀ g ∈ bot.hooksOf k, ∀ w1, (g ctx e w1).2 = none) →
      (handleWebHookEvent bot ctx typ (Event.ofKind k e) w).trace.filter Action.isLog
        = [.log (.Println [.str r.String])]) := by
  rw [handleWebHookEvent_ofKind]
  refine ⟨?_, ?_, ?_⟩
  · intro err h
    cases hr : triggerRecord k typ e with
    | none => rw [hr, logAndRunHooks_none] at h; simp at h
    | some r =>
      rw [hr, logAndRunHooks_some, Outcome.after_result] at h
      obtain ⟨pre, hook, post, c, hl, _, he, ht⟩ := runHooks_error_inv bot.logger _ ctx e _ _ err h
      refine ⟨r, pre, hook, post, c, rfl, hl, ?_, ?_, he⟩
      · rw [logAndRunHooks_some, Outcome.after_trace, ht]
      · rw [logAndRunHooks_some, Outcome.after_trace, ht, List.filter_cons_of_pos (by rfl),
          List.filter_append, okCalls_filter_isLog]
        rfl
  · intro h
    cases hr : triggerRecord k typ e with
    | none => rw [hr, logAndRunHooks_none] at h; simp at h
    | some r =>
      rw [hr, logAndRunHooks_some, Outcome.after_result] at h
      have ht := runHooks_ok_inv bot.logger _ ctx e _ _ h
      refine ⟨r, rfl, ?_, ?_⟩
      · rw [logAndRunHooks_some, Outcome.after_trace, ht]
      · rw [logAndRunHooks_some, Outcome.after_trace, ht, List.filter_cons_of_pos (by rfl),
          okCalls_filter_isLog]
  · intro r hr hok
    rw [hr, logAndRunHooks_some, Outcome.after_trace,
      runHooks_all_succeed bot.logger _ ctx e _ _ hok, List.filter_cons_of_pos (by rfl),
      okCalls_filter_isLog]

theorem hook_failure_is_logged_witness :
    (handleWebHookEvent
        (AddPushEventHook (AddPushEventHook Sample.bot0 (Sample.ok "H1"))
          (Sample.failing "H2" "boom"))
        () "push" (Event.ofKind .PushEvent Sample.fullEvent) []).result
      = .returned (some (.wrapError "error on hook" (.errorString "boom") { line := 527 }))
    ∧ ∃ r pre hook post c,
        triggerRecord .PushEvent "push" Sample.fullEvent = some r
        ∧ (AddPushEventHook (AddPushEventHook Sample.bot0 (Sample.ok "H1"))
            (Sample.failing "H2" "boom")).hooksOf .PushEvent = pre ++ hook :: post
        ∧ (handleWebHookEvent
            (AddPushEventHook (AddPushEventHook Sample.bot0 (Sample.ok "H1"))
              (Sample.failing "H2" "boom"))
            () "push" (Event.ofKind .PushEvent Sample.fullEvent) []).trace
            = .log (.Println [.str r.String]) :: (okCalls () Sample.fullEvent pre
              ++ [.invoke hook () Sample.fullEvent (some c),
                .log (.Printf "error on hook: %+v" [.err c])])
        ∧ (handleWebHookEvent
            (AddPushEventHook (AddPushEventHook Sample.bot0 (Sample.ok "H1"))
              (Sample.failing "H2" "boom"))
            () "push" (Event.ofKind .PushEvent Sample.fullEvent) []).trace.filter Action.isLog
            = [.log (.Println [.str r.String]), .log (.Printf "error on hook: %+v" [.err c])]
        ∧ GoError.wrapError "error on hook" (.errorString "boom") { line := 527 }
          = .wrapError "error on hook" c EventKind.PushEvent.errorfFrame :=
  ⟨rfl, (hook_failure_is_logged _ () "push" .PushEvent Sample.fullEvent []).1 _ rfl⟩

/-! ## The rendering of the trigger record -/

theorem json.quote_type : json.quote "type" = "\"type\"" := by decide

theorem json.quote_sender : json.quote "sender" = "\"sender\"" := by decide

theorem json.quote_org : json.quote "org" = "\"org\"" := by decide

theorem json.quote_repo : json.quote "repo" = "\"repo\"" := by decide

/-- C15: the rendering of a trigger record.  The string returned by String() is
the JSON object of the members of the record followed by a newline, where the
members are, in this order: type (always, also when empty), then sender, org and
repo, each present exactly when the corresponding member of the record is not
empty; each value is the member of the record as a JSON string.  A record with
only Type = "star" renders as the object with the single member type. -/
theorem trigger_log_renders_present_members (etl : eventTriggerLog) :
    etl.String = json.object (triggerLogMembers etl) ++ "\n"
    ∧ (triggerLogMembers etl).map Prod.fst
        = "type" :: ((if etl.Sender = "" then [] else ["sender"])
          ++ (if etl.Org = "" then [] else ["org"])
          ++ (if etl.Repo = "" then [] else ["repo"]))
    ∧ ("type", etl.Typ) ∈ triggerLogMembers etl
    ∧ (("sender", etl.Sender) ∈ triggerLogMembers etl ↔ etl.Sender ≠ "")
    ∧ (("org", etl.Org) ∈ triggerLogMembers etl ↔ etl.Org ≠ "")
    ∧ (("repo", etl.Repo) ∈ triggerLogMembers etl ↔ etl.Repo ≠ "")
    ∧ (∀ key, key ∈ (triggerLogMembers etl).map Prod.fst →
        key = "type" ∨ (key = "sender" ∧ etl.Sender ≠ "") ∨ (key = "org" ∧ etl.Org ≠ "")
          ∨ (key = "repo" ∧ etl.Repo ≠ ""))
    ∧ eventTriggerLog.String { Typ := "star" } = "\x7b\"type\":\"star\"\x7d\n" := by
  refine ⟨?_, ?_, ?_, ?_, ?_, ?_, ?_, by decide⟩
  · apply String.ext
    by_cases hs : etl.Sender = "" <;> by_cases ho : etl.Org = "" <;>
      by_cases hr : etl.Repo = "" <;>
      simp [eventTriggerLog.String, triggerLogMembers, json.object, json.members, json.member,
        json.quote_type, json.quote_sender, json.quote_org, json.quote_repo, hs, ho, hr,
        String.data_append]
  · by_cases hs : etl.Sender = "" <;> by_cases ho : etl.Org = "" <;>
      by_cases hr : etl.Repo = "" <;>
      simp [triggerLogMembers, List.filter, hs, ho, hr]
  · simp [triggerLogMembers]
  · simp [triggerLogMembers, List.filter]
    by_cases hs : etl.Sender = "" <;> by_cases ho : etl.Org = "" <;>
      by_cases hr : etl.Repo = "" <;> simp [hs, ho, hr]
  · simp [triggerLogMembers, List.filter]
    by_cases hs : etl.Sender = "" <;> by_cases ho : etl.Org = "" <;>
      by_cases hr : etl.Repo = "" <;> simp [hs, ho, hr]
  · simp [triggerLogMembers, List.filter]
    by_cases hs : etl.Sender = "" <;> by_cases ho : etl.Org = "" <;>
      by_cases hr : etl.Repo = "" <;> simp [hs, ho, hr]
  · intro key
    by_cases hs : etl.Sender = "" <;> by_cases ho : etl.Org = "" <;>
      by_cases hr : etl.Repo = "" <;>
      simp [triggerLogMembers, List.filter, hs, ho, hr]

/-! ## One line per trigger record -/

theorem json.hex_ne_newline (n : Nat) (h : n < 16) : Char.ofNat 10 ≠ json.hex n := by
  revert n
  decide

/-- The escaping of a code point never contains a raw newline. -/
theorem json.escapeRune_no_newline (c : Char) : Char.ofNat 10 ∉ json.escapeRune c := by
  have hten : Char.ofNat 10 = c → c.toNat = 10 := by
    intro h
    rw [← h]
    rfl
  unfold json.escapeRune
  simp only
  split_ifs with h1 h2 h3 h4 h5 h6 h7
  · simp only [List.mem_singleton]
    intro h
    have := hten h
    omega
  · simp only [List.mem_cons, List.mem_singleton, List.not_mem_nil, or_false, not_or]
    refine ⟨by decide, ?_⟩
    intro h
    have := hten h
    omega
  · simp only [List.mem_cons, List.mem_singleton, List.not_mem_nil, or_false, not_or]
    exact ⟨by decide, by decide⟩
  · simp only [List.mem_cons, List.mem_singleton, List.not_mem_nil, or_false, not_or]
    exact ⟨by decide, by decide⟩
  · simp only [List.mem_cons, List.mem_singleton, List.not_mem_nil, or_false, not_or]
    exact ⟨by decide, by decide⟩
  · simp only [List.mem_cons, List.mem_singleton, List.not_mem_nil, or_false, not_or]
    exact ⟨by decide, by decide, by decide, by decide,
      json.hex_ne_newline _ (by omega), json.hex_ne_newline _ (by omega)⟩
  · simp only [List.mem_cons, List.mem_singleton, List.not_mem_nil, or_false, not_or]
    exact ⟨by decide, by decide, by decide, by decide, by decide,
      json.hex_ne_newline _ (by omega)⟩
  · simp only [List.mem_singleton]
    intro h
    have := hten h
    omega

theorem json.escape_no_newline (cs : List Char) : Char.ofNat 10 ∉ json.escape cs := by
  induction cs with
  | nil => simp [json.escape]
  | cons c cs ih =>
    rw [json.escape, List.mem_append]
    exact fun h => h.elim (json.escapeRune_no_newline c) ih

/-- A quoted string never contains a raw newline. -/
theorem json.quote_no_newline (s : String) : Char.ofNat 10 ∉ (json.quote s).data := by
  simp only [json.quote, List.mem_cons, List.mem_append, List.mem_singleton, List.not_mem_nil,
    or_false, not_or]
  exact ⟨by decide, json.escape_no_newline _, by decide⟩

/-- C21: the trigger record is rendered on one line.  For all strings Type,
Sender, Org and Repo, also ones holding newline, quote or backslash characters,
the string returned by String() is a body without any newline character followed
by one newline: it holds exactly one newline character, and that is its last
character. -/
theorem trigger_log_is_one_line (etl : eventTriggerLog) :
    (∃ body : String, etl.String = body ++ "\n" ∧ Char.ofNat 10 ∉ body.data)
    ∧ etl.String.data.count (Char.ofNat 10) = 1
    ∧ etl.String.data.getLast? = some (Char.ofNat 10) := by
  have hbody : ∃ body : String, etl.String = body ++ "\n" ∧ Char.ofNat 10 ∉ body.data := by
    refine ⟨"\x7b\"type\":" ++ json.quote etl.Typ
      ++ (if etl.Sender = "" then "" else ",\"sender\":" ++ json.quote etl.Sender)
      ++ (if etl.Org = "" then "" else ",\"org\":" ++ json.quote etl.Org)
      ++ (if etl.Repo = "" then "" else ",\"repo\":" ++ json.quote etl.Repo)
      ++ "\x7d", ?_, ?_⟩
    · apply String.ext
      simp [eventTriggerLog.String, String.data_append]
    · have h1 := json.quote_no_newline etl.Typ
      have h2 := json.quote_no_newline etl.Sender
      have h3 := json.quote_no_newline etl.Org
      have h4 := json.quote_no_newline etl.Repo
      by_cases hs : etl.Sender = "" <;> by_cases ho : etl.Org = "" <;>
        by_cases hr : etl.Repo = "" <;>
        simp [String.data_append, hs, ho, hr, h1, h2, h3, h4]
  obtain ⟨body, hb, hn⟩ := hbody
  refine ⟨⟨body, hb, hn⟩, ?_, ?_⟩
  · rw [hb, String.data_append, List.count_append, List.count_eq_zero_of_not_mem hn]
    rfl
  · rw [hb, String.data_append]
    exact List.getLast?_append_cons body.data (Char.ofNat 10) []

/-! ## The kinds whose trigger record carries only the type -/

/-- C23: the six kinds whose branch reads no member of the event:
DeployKeyEvent, IssueEvent, MetaEvent, PingEvent,
RepositoryVulnerabilityAlertEvent and StarEvent (and no other kind).  For every
event e of such a kind, also a nil pointer or an event with every member absent,
the trigger record is built without a dereference, so the call does not panic;
the first logger call is Println with the record that holds only the type, whose
rendering is the object with the single member type and the discriminator as its
value; and the rest of the call is the hook loop over the hooks registered for
the kind: its result is the result of that loop. -/
theorem type_only_kinds_cannot_panic (bot : Bot Ctx P W) (ctx : Ctx) (typ : String)
    (k : EventKind) (e : Ptr (GHEvent P)) (w : W)
    (hk : k ∈ [EventKind.DeployKeyEvent, .IssueEvent, .MetaEvent, .PingEvent,
      .RepositoryVulnerabilityAlertEvent, .StarEvent]) :
    (k.logsSender = false ∧ k.logsOrg = false ∧ k.logsRepo = false)
    ∧ triggerRecord k typ e = some { Typ := typ }
    ∧ handleWebHookEvent bot ctx typ (Event.ofKind k e) w
        = (runHooks bot.logger k.errorfFrame ctx e (bot.hooksOf k)
            (bot.logger (.Println [.str (eventTriggerLog.String { Typ := typ })]) w)).after
            (.log (.Println [.str (eventTriggerLog.String { Typ := typ })]))
    ∧ (handleWebHookEvent bot ctx typ (Event.ofKind k e) w).result ≠ .panicked
    ∧ (handleWebHookEvent bot ctx typ (Event.ofKind k e) w).result
        = (runHooks bot.logger k.errorfFrame ctx e (bot.hooksOf k)
            (bot.logger (.Println [.str (eventTriggerLog.String { Typ := typ })]) w)).result
    ∧ eventTriggerLog.String { Typ := typ } = "\x7b\"type\":" ++ json.quote typ ++ "\x7d\n" := by
  have hlogs : k.logsSender = false ∧ k.logsOrg = false ∧ k.logsRepo = false := by
    simp only [List.mem_cons, List.mem_singleton, List.not_mem_nil, or_false] at hk
    rcases hk with rfl | rfl | rfl | rfl | rfl | rfl <;> exact ⟨rfl, rfl, rfl⟩
  have hrec : triggerRecord k typ e = some { Typ := typ } := by
    obtain ⟨h1, h2, h3⟩ := hlogs
    simp [triggerRecord, h1, h2, h3]
  have hrun : handleWebHookEvent bot ctx typ (Event.ofKind k e) w
      = (runHooks bot.logger k.errorfFrame ctx e (bot.hooksOf k)
          (bot.logger (.Println [.str (eventTriggerLog.String { Typ := typ })]) w)).after
          (.log (.Println [.str (eventTriggerLog.String { Typ := typ })])) := by
    rw [handleWebHookEvent_ofKind, hrec, logAndRunHooks_some]
  refine ⟨hlogs, hrec, hrun, ?_, ?_, ?_⟩
  · rw [hrun, Outcome.after_result]
    obtain ⟨r, hr⟩ := runHooks_result bot.logger _ ctx e (bot.hooksOf k)
      (bot.logger (.Println [.str (eventTriggerLog.String { Typ := typ })]) w)
    rw [hr]
    exact fun h => Result.noConfusion h
  · rw [hrun, Outcome.after_result]
  · apply String.ext
    simp [eventTriggerLog.String, String.data_append]

/-- The kinds whose branch reads no member of the event are exactly the six. -/
theorem type_only_kinds_are_six (k : EventKind) :
    (k.logsSender = false ∧ k.logsOrg = false ∧ k.logsRepo = false)
      ↔ k ∈ [EventKind.DeployKeyEvent, .IssueEvent, .MetaEvent, .PingEvent,
        .RepositoryVulnerabilityAlertEvent, .StarEvent] := by
  cases k <;> decide

theorem type_only_kinds_cannot_panic_witness :
    EventKind.PingEvent ∈ [EventKind.DeployKeyEvent, .IssueEvent, .MetaEvent, .PingEvent,
      .RepositoryVulnerabilityAlertEvent, .StarEvent]
    ∧ handleWebHookEvent (AddPingEventHook Sample.bot0 (Sample.ok "H1")) () "ping"
        (Event.ofKind .PingEvent none) []
      = (runHooks Sample.journal EventKind.PingEvent.errorfFrame () none [Sample.ok "H1"]
          (Sample.journal (.Println [.str (eventTriggerLog.String { Typ := "ping" })]) [])).after
          (.log (.Println [.str (eventTriggerLog.String { Typ := "ping" })]))
    ∧ (handleWebHookEvent (AddPingEventHook Sample.bot0 (Sample.ok "H1")) () "ping"
        (Event.ofKind .PingEvent none) []).result ≠ .panicked :=
  ⟨by decide,
    (type_only_kinds_cannot_panic (AddPingEventHook Sample.bot0 (Sample.ok "H1")) () "ping"
      .PingEvent none [] (by decide)).2.2.1,
    (type_only_kinds_cannot_panic (AddPingEventHook Sample.bot0 (Sample.ok "H1")) () "ping"
      .PingEvent none [] (by decide)).2.2.2.1⟩

/-! ## The discriminator -/

/-- The trigger records built for two discriminators differ in the type only. -/
theorem triggerRecord_discriminator (k : EventKind) (t1 t2 : String) (e : Ptr (GHEvent P)) :
    triggerRecord k t2 e = (triggerRecord k t1 e).map (fun r => { r with Typ := t2 }) := by
  unfold triggerRecord
  cases k.logsSender <;> cases k.logsOrg <;> cases k.logsRepo <;>
    cases User.loadLogin (GHEvent.GetSender e) <;>
    cases Organization.loadName (GHEvent.GetOrg e) <;>
    cases Repository.loadName (GHEvent.GetRepo e) <;> rfl

theorem Outcome.after_log_filter_isInvoke (call : LogCall) (o : Outcome Ctx P W) :
    (o.after (.log call)).trace.filter Action.isInvoke = o.trace.filter Action.isInvoke := by
  rw [Outcome.after_trace, List.filter_cons_of_neg (by simp [Action.isInvoke])]

/-- C22 as stated fails: a hook can see what the logger recorded.  The logger
writes the rendered trigger record to the journal; the first push hook returns
an error when the journal holds the record of type push, the second returns nil.
The same push event dispatched with the discriminator push calls the first hook
only and returns an error; dispatched with not_a_real_kind it calls both push
hooks and returns nil. -/
theorem discriminator_reaches_hooks_through_logger :
    handleWebHookEvent
        (AddPushEventHook (AddPushEventHook (SetLogger (New { WebHookSecret := "secret" })
            Sample.recorder)
          (Sample.failsOnLine (eventTriggerLog.String
            { Typ := "push", Sender := "octocat", Repo := "hello-world" }) "seen"))
          (Sample.ok "H2"))
        () "push" (.PushEvent Sample.fullEvent) []
      = { world := [eventTriggerLog.String
              { Typ := "push", Sender := "octocat", Repo := "hello-world" }, "log"]
          trace := [.log (.Println [.str (eventTriggerLog.String
                { Typ := "push", Sender := "octocat", Repo := "hello-world" })]),
            .invoke (Sample.failsOnLine (eventTriggerLog.String
                { Typ := "push", Sender := "octocat", Repo := "hello-world" }) "seen")
              () Sample.fullEvent (some (.errorString "seen")),
            .log (.Printf "error on hook: %+v" [.err (.errorString "seen")])]
          result := .returned (some (.wrapError "error on hook" (.errorString "seen") { line := 527 })) }
    ∧ handleWebHookEvent
        (AddPushEventHook (AddPushEventHook (SetLogger (New { WebHookSecret := "secret" })
            Sample.recorder)
          (Sample.failsOnLine (eventTriggerLog.String
            { Typ := "push", Sender := "octocat", Repo := "hello-world" }) "seen"))
          (Sample.ok "H2"))
        () "not_a_real_kind" (.PushEvent Sample.fullEvent) []
      = { world := [eventTriggerLog.String
              { Typ := "not_a_real_kind", Sender := "octocat", Repo := "hello-world" }, "H2"]
          trace := [.log (.Println [.str (eventTriggerLog.String
                { Typ := "not_a_real_kind", Sender := "octocat", Repo := "hello-world" })]),
            .invoke (Sample.failsOnLine (eventTriggerLog.String
                { Typ := "push", Sender := "octocat", Repo := "hello-world" }) "seen")
              () Sample.fullEvent none,
            .invoke (Sample.ok "H2") () Sample.fullEvent none]
          result := .returned none } :=
  ⟨rfl, rfl⟩

/-- Two dispatches of the same event of a supported kind under two discriminators:
when the results of the hooks do not depend on the world, or the effect of the
logger does not depend on the call, the same hooks are called with the same
results and the two calls end the same way. -/
theorem handleWebHookEvent_ofKind_discriminator (bot : Bot Ctx P W) (ctx : Ctx) (k : EventKind)
    (e : Ptr (GHEvent P)) (t1 t2 : String) (w : W)
    (h : (∀ k, ∀ g ∈ bot.hooksOf k, ∀ c e w1 w2, (g c e w1).2 = (g c e w2).2)
      ∨ (∀ call1 call2 w0, bot.logger call1 w0 = bot.logger call2 w0)) :
    (handleWebHookEvent bot ctx t1 (Event.ofKind k e) w).trace.filter Action.isInvoke
        = (handleWebHookEvent bot ctx t2 (Event.ofKind k e) w).trace.filter Action.isInvoke
    ∧ (handleWebHookEvent bot ctx t1 (Event.ofKind k e) w).result
        = (handleWebHookEvent bot ctx t2 (Event.ofKind k e) w).result := by
  rw [handleWebHookEvent_ofKind, handleWebHookEvent_ofKind, triggerRecord_discriminator k t1 t2 e]
  cases triggerRecord k t1 e with
  | none => exact ⟨rfl, rfl⟩
  | some r =>
    rw [Option.map_some', logAndRunHooks_some, logAndRunHooks_some,
      Outcome.after_log_filter_isInvoke, Outcome.after_log_filter_isInvoke,
      Outcome.after_result, Outcome.after_result]
    rcases h with hind | hlog
    · obtain ⟨h1, h2⟩ := runHooks_state_independent bot.logger _ ctx e (bot.hooksOf k)
        (fun g hg => hind k g hg ctx e) (bot.logger (.Println [.str r.String]) w)
        (bot.logger (.Println [.str (eventTriggerLog.String { r with Typ := t2 })]) w)
      rw [h1, h2]
      exact ⟨rfl, rfl⟩
    · rw [hlog (.Println [.str r.String])
        (.Println [.str (eventTriggerLog.String { r with Typ := t2 })]) w]
      exact ⟨rfl, rfl⟩

/-- C22, amended: routing does not depend on the discriminator.  For every bot,
event and two discriminators t1 and t2, provided the results of the hooks do not
depend on the world or the effect of the logger does not depend on the call:
the two calls invoke the same hooks in the same order with the same results;
one returns nil exactly when the other does and one panics exactly when the
other does; for an event of a supported kind the two results are equal.
Without any proviso: the discriminator enters the dispatch of an event of kind k
only as the type of the trigger record, the hook list iterated being that of k
whatever the discriminator, and it enters the handling of an unsupported value
only as the argument of the log call and of the error message. -/
theorem routing_ignores_discriminator (bot : Bot Ctx P W) (ctx : Ctx) (event : Event P)
    (t1 t2 : String) (w : W)
    (h : (∀ k, ∀ g ∈ bot.hooksOf k, ∀ c e w1 w2, (g c e w1).2 = (g c e w2).2)
      ∨ (∀ call1 call2 w0, bot.logger call1 w0 = bot.logger call2 w0)) :
    (handleWebHookEvent bot ctx t1 event w).trace.filter Action.isInvoke
        = (handleWebHookEvent bot ctx t2 event w).trace.filter Action.isInvoke
    ∧ ((handleWebHookEvent bot ctx t1 event w).result = .returned none
        ↔ (handleWebHookEvent bot ctx t2 event w).result = .returned none)
    ∧ ((handleWebHookEvent bot ctx t1 event w).result = .panicked
        ↔ (handleWebHookEvent bot ctx t2 event w).result = .panicked)
    ∧ (∀ k e, event = Event.ofKind k e →
        (handleWebHookEvent bot ctx t1 event w).result
          = (handleWebHookEvent bot ctx t2 event w).result)
    ∧ (∀ k e t,
        handleWebHookEvent bot ctx t (Event.ofKind k e) w
          = logAndRunHooks bot.logger k.errorfFrame ctx e (triggerRecord k t e) (bot.hooksOf k) w
        ∧ triggerRecord k t e = (triggerRecord k t1 e).map (fun r => { r with Typ := t }))
    ∧ (event.kind? = none → ∀ t,
        (handleWebHookEvent bot ctx t event w).trace
          = [.log (.Printf "unsupported event type: %s" [.str t])]
        ∧ (handleWebHookEvent bot ctx t event w).result
          = .returned (some (xerrors.ErrorfS "unsupported event type: " t { line := 627 }))) := by
  have hother : event.kind? = none → ∀ t,
      (handleWebHookEvent bot ctx t event w).trace
        = [.log (.Printf "unsupported event type: %s" [.str t])]
      ∧ (handleWebHookEvent bot ctx t event w).result
        = .returned (some (xerrors.ErrorfS "unsupported event type: " t { line := 627 })) := by
    intro hk t
    cases event <;> simp [Event.kind?] at hk
    exact ⟨rfl, rfl⟩
  have hkind : ∀ k e, event = Event.ofKind k e →
      (handleWebHookEvent bot ctx t1 event w).result
        = (handleWebHookEvent bot ctx t2 event w).result := by
    intro k e he
    subst he
    exact (handleWebHookEvent_ofKind_discriminator bot ctx k e t1 t2 w h).2
  refine ⟨?_, ?_, ?_, hkind, fun k e t =>
    ⟨handleWebHookEvent_ofKind bot ctx t k e w, triggerRecord_discriminator k t1 t e⟩, hother⟩
  · cases hk : event.kind? with
    | none => rw [(hother hk t1).1, (hother hk t2).1]; rfl
    | some k =>
      obtain ⟨e, rfl⟩ := Event.eq_ofKind_of_kind? event k hk
      exact (handleWebHookEvent_ofKind_discriminator bot ctx k e t1 t2 w h).1
  · cases hk : event.kind? with
    | none => rw [(hother hk t1).2, (hother hk t2).2]; simp
    | some k =>
      obtain ⟨e, rfl⟩ := Event.eq_ofKind_of_kind? event k hk
      rw [hkind k e rfl]
  · cases hk : event.kind? with
    | none => rw [(hother hk t1).2, (hother hk t2).2]; simp
    | some k =>
      obtain ⟨e, rfl⟩ := Event.eq_ofKind_of_kind? event k hk
      rw [hkind k e rfl]

theorem routing_ignores_discriminator_witness :
    ((∀ k, ∀ g ∈ (AddPushEventHook Sample.bot0 (Sample.ok "H1")).hooksOf k,
        ∀ (c : Unit) (e : Ptr (GHEvent Unit)) (w1 w2 : List String), (g c e w1).2 = (g c e w2).2)
      ∨ (∀ call1 call2 w0, (AddPushEventHook Sample.bot0 (Sample.ok "H1")).logger call1 w0
          = (AddPushEventHook Sample.bot0 (Sample.ok "H1")).logger call2 w0))
    ∧ (handleWebHookEvent (AddPushEventHook Sample.bot0 (Sample.ok "H1")) () "push"
          (.PushEvent Sample.fullEvent) []).trace.filter Action.isInvoke
        = (handleWebHookEvent (AddPushEventHook Sample.bot0 (Sample.ok "H1")) ()
          "not_a_real_kind" (.PushEvent Sample.fullEvent) []).trace.filter Action.isInvoke
    ∧ (handleWebHookEvent (AddPushEventHook Sample.bot0 (Sample.ok "H1")) ()
          "not_a_real_kind" (.PushEvent Sample.fullEvent) []).trace.filter Action.isInvoke
        = [.invoke (Sample.ok "H1") () Sample.fullEvent none]
    ∧ (handleWebHookEvent (AddPushEventHook Sample.bot0 (Sample.ok "H1")) ()
          "not_a_real_kind" (.PushEvent Sample.fullEvent) []).result = .returned none :=
  ⟨Or.inr (fun _ _ _ => rfl),
    (routing_ignores_discriminator (AddPushEventHook Sample.bot0 (Sample.ok "H1")) ()
      (.PushEvent Sample.fullEvent) "push" "not_a_real_kind" [] (Or.inr (fun _ _ _ => rfl))).1,
    rfl, rfl⟩

/-! ## Registration from inside a running hook -/

/-- On a free mutex every registration call of the list completes and leaves the
mutex free; the list of kind k grows by the hooks passed for k, in call order;
the logger is untouched. -/
theorem applyRegistrations_free (regs : List (EventKind × ReHook Ctx P W))
    (bot : Bot Ctx P (ReWorld Ctx P W)) :
    ∃ bot1, applyRegistrations .free regs bot = some (bot1, .free)
      ∧ bot1.logger = bot.logger
      ∧ ∀ k, bot1.hooksOf k = bot.hooksOf k ++ (registrationsFor k regs).map ReHook.lift := by
  induction regs generalizing bot with
  | nil => exact ⟨bot, rfl, rfl, fun k => by simp [registrationsFor]⟩
  | cons kh rest ih =>
    obtain ⟨k1, h⟩ := kh
    obtain ⟨bot1, h1, h2, h3⟩ := ih (bot.register k1 h.lift)
    refine ⟨bot1, ?_, ?_, ?_⟩
    · simp only [applyRegistrations, AddHookLocked]
      exact h1
    · rw [h2, Bot.logger_register]
    · intro k
      rw [h3 k, registrationsFor]
      by_cases hk : k1 = k
      · subst hk
        rw [Bot.hooksOf_register_self, if_pos rfl, List.map_cons, List.append_assoc]
        rfl
      · rw [Bot.hooksOf_register_other bot k1 k hk, if_neg hk]

/-- On a held mutex the first registration call blocks. -/
theorem applyRegistrations_held (kh : EventKind × ReHook Ctx P W)
    (rest : List (EventKind × ReHook Ctx P W)) (bot : Bot Ctx P (ReWorld Ctx P W)) :
    applyRegistrations .held (kh :: rest) bot = none := by
  obtain ⟨k, h⟩ := kh
  rfl

/-- Were the mutex held while the hooks run, a dispatch in which a hook makes a
registration call would never complete. -/
theorem dispatchReentrant_held (bot : Bot Ctx P (ReWorld Ctx P W)) (ctx : Ctx) (typ : String)
    (event : Event P) (w : W)
    (h : (handleWebHookEvent bot ctx typ event (w, [])).world.2 ≠ []) :
    dispatchReentrant bot .held ctx typ event w = none := by
  unfold dispatchReentrant
  cases hw : (handleWebHookEvent bot ctx typ event (w, [])).world.2 with
  | nil => exact absurd hw h
  | cons kh rest => rw [applyRegistrations_held]

/-- C24: a dispatch iterates the hook list as it was when the iteration began.
For a bot whose hooks may call registration methods while they run, the mutex
being free when the dispatch of an event of kind k begins:
(1) the call completes, every registration call made by a running hook having
completed, and the mutex is free afterwards (handleWebHookEvent never holds it);
(2) every hook called in this dispatch is a member of the list of k as it was
when the dispatch began: a hook registered during the dispatch is not called;
(3) after the call the list of every kind is the list before it followed by the
hooks registered for that kind during the dispatch, in call order;
(4) the next dispatch of an event of kind k iterates that longer list: the hooks
registered before, then the hooks registered during the earlier dispatch. -/
theorem reentrant_registration_uses_snapshot (bot : Bot Ctx P (ReWorld Ctx P W)) (ctx : Ctx)
    (typ : String) (k : EventKind) (e : Ptr (GHEvent P)) (w : W) :
    ∃ bot1,
      dispatchReentrant bot .free ctx typ (Event.ofKind k e) w
        = some (bot1, .free, handleWebHookEvent bot ctx typ (Event.ofKind k e) (w, []))
      ∧ (∀ g c e1 ret,
          Action.invoke g c e1 ret
            ∈ (handleWebHookEvent bot ctx typ (Event.ofKind k e) (w, [])).trace →
          g ∈ bot.hooksOf k)
      ∧ (∀ k1, bot1.hooksOf k1 = bot.hooksOf k1
          ++ (registrationsFor k1
              (handleWebHookEvent bot ctx typ (Event.ofKind k e) (w, [])).world.2).map
            ReHook.lift)
      ∧ (∀ ctx2 typ2 e2 s2,
          handleWebHookEvent bot1 ctx2 typ2 (Event.ofKind k e2) s2
            = logAndRunHooks bot.logger k.errorfFrame ctx2 e2 (triggerRecord k typ2 e2)
                (bot.hooksOf k ++ (registrationsFor k
                    (handleWebHookEvent bot ctx typ (Event.ofKind k e) (w, [])).world.2).map
                  ReHook.lift) s2) := by
  obtain ⟨bot1, h1, h2, h3⟩ := applyRegistrations_free
    (handleWebHookEvent bot ctx typ (Event.ofKind k e) (w, [])).world.2 bot
  refine ⟨bot1, ?_, ?_, h3, ?_⟩
  · simp only [dispatchReentrant, h1]
  · intro g c e1 ret hmem
    rw [handleWebHookEvent_ofKind] at hmem
    cases hr : triggerRecord k typ e with
    | none => rw [hr, logAndRunHooks_none] at hmem; simp at hmem
    | some r =>
      rw [hr, logAndRunHooks_some, Outcome.after_trace, List.mem_cons] at hmem
      rcases hmem with hmem | hmem
      · cases hmem
      · exact (runHooks_trace_mem bot.logger _ ctx e _ _ g c e1 ret hmem).1
  · intro ctx2 typ2 e2 s2
    rw [handleWebHookEvent_ofKind, h3 k, h2]

/-- The scenario of C24 on sample values.  The push list holds one hook H, which
registers the hook N for push each time it runs.  The first dispatch calls H
only and leaves the list H, N.  The second dispatch calls H and then N, last. -/
theorem reentrant_registration_uses_snapshot_witness :
    dispatchReentrant
        (AddPushEventHook Sample.rebot0
          (Sample.registering "H" .PushEvent (Sample.plain "N")).lift)
        .free () "push" (Event.ofKind .PushEvent Sample.fullEvent) []
      = some
          (AddPushEventHook
            (AddPushEventHook Sample.rebot0
              (Sample.registering "H" .PushEvent (Sample.plain "N")).lift)
            (Sample.plain "N").lift,
          .free,
          { world := (["log", "H"], [(.PushEvent, Sample.plain "N")])
            trace := [.log (.Println [.str (eventTriggerLog.String
                  { Typ := "push", Sender := "octocat", Repo := "hello-world" })]),
              .invoke (Sample.registering "H" .PushEvent (Sample.plain "N")).lift ()
                Sample.fullEvent none]
            result := .returned none })
    ∧ (handleWebHookEvent
        (AddPushEventHook
          (AddPushEventHook Sample.rebot0
            (Sample.registering "H" .PushEvent (Sample.plain "N")).lift)
          (Sample.plain "N").lift)
        () "push" (Event.ofKind .PushEvent Sample.fullEvent) (["log", "H"], [])).trace
      = [.log (.Println [.str (eventTriggerLog.String
            { Typ := "push", Sender := "octocat", Repo := "hello-world" })]),
          .invoke (Sample.registering "H" .PushEvent (Sample.plain "N")).lift ()
            Sample.fullEvent none,
          .invoke (Sample.plain "N").lift () Sample.fullEvent none]
    ∧ ∃ bot1,
      dispatchReentrant
          (AddPushEventHook Sample.rebot0
            (Sample.registering "H" .PushEvent (Sample.plain "N")).lift)
          .free () "push" (Event.ofKind .PushEvent Sample.fullEvent) []
        = some (bot1, .free,
            handleWebHookEvent
              (AddPushEventHook Sample.rebot0
                (Sample.registering "H" .PushEvent (Sample.plain "N")).lift)
              () "push" (Event.ofKind .PushEvent Sample.fullEvent) ([], [])) :=
  ⟨rfl, rfl,
    (reentrant_registration_uses_snapshot
      (AddPushEventHook Sample.rebot0
        (Sample.registering "H" .PushEvent (Sample.plain "N")).lift)
      () "push" .PushEvent Sample.fullEvent []).imp (fun _ h => h.1)⟩

end Ghbot
